import Mathlib

/-!
Verification development for the outworld-backend ingestion pipeline.

The Python source is shallowly embedded:
* datetimes are minutes since the civil epoch (a `Nat`); Python
  `timedelta(days = d, hours = h)` is `d * 1440 + h * 60` minutes;
* the Supabase record store is a `List Event` (rows in insertion order);
* code that catches exceptions from store queries is parameterised by
  explicit failure flags saying whether the underlying query raises;
* WGS84 coordinates (floats) are not modelled: no claim depends on them.
-/

set_option maxHeartbeats 1000000

/-- Age groups, from app/models.py (class AgeGroup). -/
inductive AgeGroup where
  | baby
  | toddler
  | kid
  | youth
deriving DecidableEq, Repr

/-- Price types, from app/models.py (class PriceType). -/
inductive PriceType where
  | free
  | paid
deriving DecidableEq, Repr

/-- The canonical event schema, from app/models.py (class Event).
`id`, `latitude`, `longitude` and `last_updated_at` are omitted: `id` is
store-assigned and never read by the pipeline logic under claim, the
coordinates are floats, and `last_updated_at` is never compared. Datetimes
are minutes since the civil epoch. `image_url` is `Option String` because
the schema marks it optional (default `None`). -/
structure Event where
  title : String
  description : String
  date_start : Nat
  date_end : Nat
  location_name : String
  address : String
  city : String
  age_group : AgeGroup
  categories : List String
  price_type : PriceType
  source_url : String
  image_url : Option String := none
deriving DecidableEq, Repr

/-- Days from civil date (proleptic Gregorian), Hinnant's algorithm,
shifted so that 0001-03-01 is day 0; only used on dates well after that,
so `Nat` arithmetic suffices.  Used to embed Python
`datetime(y, m, d, hh, mm)` literals as absolute minute counts. -/
def daysFromCivil (y m d : Nat) : Nat :=
  let y := if m ≤ 2 then y - 1 else y
  let era := y / 400
  let yoe := y % 400
  let mp := (m + 9) % 12
  let doy := (153 * mp + 2) / 5 + d - 1
  let doe := yoe * 365 + yoe / 4 - yoe / 100 + doy
  era * 146097 + doe

/-- Python `datetime(y, m, d, hh, mm)` as minutes since the civil epoch. -/
def pyDatetime (y m d hh mm : Nat) : Nat :=
  daysFromCivil y m d * 1440 + hh * 60 + mm

/-- Python `timedelta(days = d, hours = h, minutes = m)` in minutes. -/
def pyDelta (d h m : Nat) : Nat :=
  d * 1440 + h * 60 + m

/-- Python `t.replace(hour = h, minute = 0, second = 0, microsecond = 0)`:
keep the civil day of `t`, set the clock time to `h:00`. -/
def pyReplaceHour (t h : Nat) : Nat :=
  t / 1440 * 1440 + h * 60


/-! ### Kernel-reducible string primitives

The embedding uses character-list implementations of the string
operations the Python code performs (startswith, endswith, lower, slice,
split, substring containment) so that concrete claims evaluate inside
the kernel; they agree with the library versions on the ASCII data this
repository handles. -/

/-- Whether the second list is a leading segment of the first. -/
def chListStarts : List Char → List Char → Bool
  | _, [] => true
  | [], _ :: _ => false
  | c :: cs, d :: ds => c = d && chListStarts cs ds

/-- Python `s.startswith(p)`. -/
def strStartsWith (s p : String) : Bool :=
  chListStarts s.data p.data

/-- Python `s.endswith(p)`. -/
def strEndsWith (s p : String) : Bool :=
  chListStarts s.data.reverse p.data.reverse

/-- Substring occurrence check on character lists. -/
def chContains : List Char → List Char → Bool
  | [], p => chListStarts [] p
  | c :: rest, p => chListStarts (c :: rest) p || chContains rest p

/-- ASCII lowercase of one character. -/
def lowerChar (c : Char) : Char :=
  if 'A' ≤ c ∧ c ≤ 'Z' then Char.ofNat (c.toNat + 32) else c

/-- Python `s.lower()` (ASCII). -/
def strToLower (s : String) : String :=
  String.mk (s.data.map lowerChar)

/-- Python slice `s[:n]`. -/
def strTake (s : String) (n : Nat) : String :=
  String.mk (s.data.take n)

/-- Helper for splitting at slashes. -/
def splitSlashAux : List Char → List Char → List String
  | [], acc => [String.mk acc.reverse]
  | c :: cs, acc =>
    if c = '/' then String.mk acc.reverse :: splitSlashAux cs []
    else splitSlashAux cs (c :: acc)

/-- Python `s.split('/')`. -/
def splitSlash (s : String) : List String :=
  splitSlashAux s.data []

/-- Whether a stored row matches the dedup triple
(title, date_start, location_name); this is the `eq/eq/eq` filter used by
both existence checks in app/database.py. -/
def tripleMatches (r : Event) (title : String) (ds : Nat) (loc : String) : Bool :=
  r.title = title && r.date_start = ds && r.location_name = loc

/-- app/database.py, DatabaseHandler.event_exists (lines 123-137): exact
triple query; the `except` branch returns `False`, modelled by the
`raises` flag. -/
def dhEventExists (raises : Bool) (db : List Event)
    (title : String) (ds : Nat) (loc : String) : Bool :=
  if raises then false
  else db.any (fun r => tripleMatches r title ds loc)

/-- app/database.py, SupabaseHandler.get_events_by_title_and_location
(lines 109-116): loose (title, location_name) query; the `except` branch
returns `[]`, modelled by the `raises` flag. -/
def getEventsByTitleAndLocation (raises : Bool) (db : List Event)
    (title : String) (loc : String) : List Event :=
  if raises then []
  else db.filter (fun r => r.title = title && r.location_name = loc)

/-- app/database.py, SupabaseHandler.event_exists (lines 30-44): same
triple query done again inside insert_event; `except` returns `False`. -/
def shEventExists (raises : Bool) (db : List Event) (e : Event) : Bool :=
  if raises then false
  else db.any (fun r => tripleMatches r e.title e.date_start e.location_name)

/-- Failure injection for the store calls made on behalf of one event in
DatabaseHandler.save_events: whether each of the four underlying Supabase
operations raises. -/
structure EventFail where
  tripleRaises : Bool := false
  looseRaises : Bool := false
  innerExistsRaises : Bool := false
  insertRaises : Bool := false
deriving Repr

/-- The environment in which every store call succeeds. -/
def okEnv : Nat → EventFail := fun _ => {}

/-- The environment in which every store read raises (writes succeed). -/
def readsFail : EventFail :=
  { tripleRaises := true, looseRaises := true, innerExistsRaises := true }

/-- app/database.py, SupabaseHandler.insert_event (lines 46-70): re-check
the triple via SupabaseHandler.event_exists, skip if it hits, otherwise
insert; any exception from the insert itself is caught and yields `None`
with the store unchanged.  Returns (result row, new store). -/
def insertEvent (f : EventFail) (db : List Event) (e : Event) :
    Option Event × List Event :=
  if shEventExists f.innerExistsRaises db e then (none, db)
  else if f.insertRaises then (none, db)
  else (some e, db ++ [e])

/-- Per-event outcome of DatabaseHandler.save_events: inserted, skipped by
the exact triple check, skipped by the loose check, or insert failure. -/
inductive SaveOutcome where
  | saved
  | skippedTriple
  | skippedLoose
  | failed
deriving DecidableEq, Repr

/-- One iteration of the loop in DatabaseHandler.save_events
(lines 145-162): exact triple check, then loose (title, location) check,
then insert_event; either check hitting counts the event as skipped. -/
def saveStep (f : EventFail) (db : List Event) (e : Event) :
    SaveOutcome × List Event :=
  if dhEventExists f.tripleRaises db e.title e.date_start e.location_name then
    (SaveOutcome.skippedTriple, db)
  else if (getEventsByTitleAndLocation f.looseRaises db e.title e.location_name).isEmpty then
    match insertEvent f db e with
    | (some _, db1) => (SaveOutcome.saved, db1)
    | (none, db1) => (SaveOutcome.failed, db1)
  else
    (SaveOutcome.skippedLoose, db)

/-- The loop of DatabaseHandler.save_events (lines 139-168) over the whole
batch, threading the store and the per-event failure environment (indexed
by position in the batch).  Returns the per-event outcomes in order and
the final store; none of the per-event operations can abort the loop
because every underlying call catches its own exceptions. -/
def saveEventsAux (env : Nat → EventFail) (i : Nat) (db : List Event) :
    List Event → List SaveOutcome × List Event
  | [] => ([], db)
  | e :: rest =>
    ((saveStep (env i) db e).1 :: (saveEventsAux env (i + 1) (saveStep (env i) db e).2 rest).1,
     (saveEventsAux env (i + 1) (saveStep (env i) db e).2 rest).2)

/-- app/database.py, DatabaseHandler.save_events. -/
def saveEvents (env : Nat → EventFail) (db : List Event) (events : List Event) :
    List SaveOutcome × List Event :=
  saveEventsAux env 0 db events

/-- The saved_count reported by save_events. -/
def savedCount (outcomes : List SaveOutcome) : Nat :=
  outcomes.count SaveOutcome.saved

/-- The skipped_count reported by save_events (both skip branches
increment the same counter). -/
def skippedCount (outcomes : List SaveOutcome) : Nat :=
  (outcomes.filter (fun o => o = SaveOutcome.skippedTriple || o = SaveOutcome.skippedLoose)).length

example : saveEvents okEnv [] [] = ([], []) := rfl

/-! ## Statistics tracking (app/scheduler.py, class ScrapingStats) -/

/-- The mutable statistics object, app/scheduler.py lines 25-37.
Counter dictionaries are insertion-ordered association lists, as Python
dicts are.  Times are minutes since the civil epoch. -/
structure ScrapingStats where
  total_runs : Nat := 0
  successful_runs : Nat := 0
  failed_runs : Nat := 0
  total_events_scraped : Nat := 0
  last_run_time : Option Nat := none
  last_success_time : Option Nat := none
  last_error : Option String := none
  events_by_source : List (String × Nat) := []
  events_by_age_group : List (String × Nat) := []
  events_by_category : List (String × Nat) := []
  events_without_images : Nat := 0
deriving DecidableEq, Repr

/-- app/scheduler.py, ScrapingStats.update_run_stats (lines 39-51); `now`
is the wall-clock instant of the call.  The Python guard `if error:` only
overwrites last_error with a truthy (non-None, non-empty) string. -/
def updateRunStats (s : ScrapingStats) (success : Bool) (eventsCount : Nat)
    (error : Option String) (now : Nat) : ScrapingStats :=
  let s := { s with total_runs := s.total_runs + 1, last_run_time := some now }
  if success then
    { s with successful_runs := s.successful_runs + 1,
             total_events_scraped := s.total_events_scraped + eventsCount,
             last_success_time := some now }
  else
    { s with failed_runs := s.failed_runs + 1,
             last_error := if (error.getD "") = "" then s.last_error else error }

/-- The success_rate field computed by ScrapingStats.get_stats
(app/scheduler.py line 86): percentage as an exact rational, 0 when no
run has happened yet. -/
def successRate (s : ScrapingStats) : ℚ :=
  if 0 < s.total_runs then
    (s.successful_runs : ℚ) / (s.total_runs : ℚ) * 100
  else 0

/-- The .value string of an AgeGroup (app/models.py). -/
def ageGroupValue : AgeGroup → String
  | .baby => "baby"
  | .toddler => "toddler"
  | .kid => "kid"
  | .youth => "youth"

/-- Python dict counter bump `d[k] = d.get(k, 0) + 1` on an
insertion-ordered association list. -/
def bumpCount (m : List (String × Nat)) (k : String) : List (String × Nat) :=
  if m.any (fun kv => kv.1 = k) then
    m.map (fun kv => if kv.1 = k then (kv.1, kv.2 + 1) else kv)
  else m ++ [(k, 1)]

/-- The source key used by ScrapingStats.update_event_stats (line 57):
`event.source_url.split('/')[2] if event.source_url else 'unknown'`; the
index raises IndexError when the split has fewer than three parts. -/
def eventSourceKey (e : Event) : Except String String :=
  if e.source_url = "" then .ok "unknown"
  else
    match (splitSlash e.source_url)[2]? with
    | some s => .ok s
    | none => .error "IndexError: list index out of range"

/-- One iteration of ScrapingStats.update_event_stats (lines 53-70). -/
def updateEventStatsOne (s : ScrapingStats) (e : Event) :
    Except String ScrapingStats := do
  let source ← eventSourceKey e
  let s := { s with events_by_source := bumpCount s.events_by_source source }
  let s := { s with events_by_age_group :=
               bumpCount s.events_by_age_group (ageGroupValue e.age_group) }
  let s := { s with events_by_category :=
               e.categories.foldl bumpCount s.events_by_category }
  pure (if (e.image_url.getD "") = "" then
          { s with events_without_images := s.events_without_images + 1 }
        else s)

/-- app/scheduler.py, ScrapingStats.update_event_stats over a batch. -/
def updateEventStats (s : ScrapingStats) (events : List Event) :
    Except String ScrapingStats :=
  events.foldlM updateEventStatsOne s

/-! ## Validator (app/scheduler.py, EventScheduler) -/

/-- app/scheduler.py, EventScheduler.ensure_image_url (lines 107-112):
`if not event.image_url` is Python falsiness, so a missing image and an
empty-string image are both rejected. -/
def ensureImageUrl (e : Event) : Bool :=
  !((e.image_url.getD "") = "")

/-- app/scheduler.py, EventScheduler.validate_event (lines 114-128). -/
def validateEvent (e : Event) : Bool :=
  if !ensureImageUrl e then false
  else if e.title = "" || e.description = "" then false
  else if e.location_name = "" || e.address = "" then false
  else true

/-! ## Cache layer (app/cache.py) -/

/-- One MemoryCache entry (app/cache.py, MemoryCache.set). -/
structure CacheItem where
  value : String
  expires_at : Nat
  created_at : Nat
deriving DecidableEq, Repr

/-- The MemoryCache backing dict, insertion-ordered. -/
abbrev MemCache := List (String × CacheItem)

/-- app/cache.py, MemoryCache._cleanup_expired: drop entries whose expiry
instant has passed (`time.time() > expires_at`). -/
def cacheCleanup (t : Nat) (c : MemCache) : MemCache :=
  c.filter (fun kv => !(decide (kv.2.expires_at < t)))

/-- app/cache.py, MemoryCache.get (lines 40-55): lazy cleanup, then a hit
when the key is present and not expired.  Returns the value (if any) and
the cache after the maintenance sweep. -/
def cacheGet (t : Nat) (c : MemCache) (key : String) : Option String × MemCache :=
  let c1 := cacheCleanup t c
  match c1.lookup key with
  | some item =>
    if !(decide (item.expires_at < t)) then (some item.value, c1)
    else (none, c1.filter (fun kv => !(kv.1 = key)))
  | none => (none, c1)

/-- Python dict assignment on the association list. -/
def dictSet (c : MemCache) (k : String) (it : CacheItem) : MemCache :=
  if c.any (fun kv => kv.1 = k) then
    c.map (fun kv => if kv.1 = k then (k, it) else kv)
  else c ++ [(k, it)]

/-- app/cache.py, MemoryCache.set (lines 57-70). -/
def cacheSet (t : Nat) (c : MemCache) (key value : String) (ttl : Nat) : MemCache :=
  dictSet c key { value := value, expires_at := t + ttl, created_at := t }

/-- app/cache.py, MemoryCache.delete (lines 72-78). -/
def cacheDelete (c : MemCache) (key : String) : MemCache :=
  c.filter (fun kv => !(kv.1 = key))

/-- Whether a key belongs to one of the event-derived cache classes that
invalidate_events_cache targets (app/cache.py lines 193-196). -/
def isEventDerivedKey (k : String) : Bool :=
  strStartsWith k "events:" || strStartsWith k "map:" || strStartsWith k "stats:"

/-- app/cache.py, invalidate_events_cache (lines 189-201): delete every
key under the events:, map: and stats: prefixes. -/
def invalidateEventsCache (c : MemCache) : MemCache :=
  c.filter (fun kv => !isEventDerivedKey kv.1)

/-- app/cache.py, CachedDatabase.save_events (lines 222-226): delegate to
DatabaseHandler.save_events, then invalidate the event-derived cache
classes. -/
def cachedDbSaveEvents (env : Nat → EventFail) (db : List Event)
    (events : List Event) (c : MemCache) :
    (List SaveOutcome × List Event) × MemCache :=
  (saveEvents env db events, invalidateEventsCache c)

/-- app/database.py, DatabaseHandler.delete_old_events (lines 255-266):
delete rows with date_start before the cutoff, returning the count. -/
def deleteOldEvents (db : List Event) (cutoff : Nat) : Nat × List Event :=
  ((db.filter (fun r => r.date_start < cutoff)).length,
   db.filter (fun r => !(decide (r.date_start < cutoff))))

/-- app/database.py, DatabaseHandler.delete_expired_events
(lines 268-279): delete rows whose date_end has passed. -/
def deleteExpiredEvents (db : List Event) (t : Nat) : Nat × List Event :=
  ((db.filter (fun r => r.date_end < t)).length,
   db.filter (fun r => !(decide (r.date_end < t))))

/-! ## Orchestrator cycle (app/scheduler.py, EventScheduler) -/

/-- The process state the orchestrator touches: the shared statistics
object, the record store, and the in-memory cache.  `saveCalled` records
whether DatabaseHandler.save_events was invoked during the operation
under study (observable in the source through its log output and store
traffic).  The cache is part of the state to make cache effects of each
orchestrator path explicit; app/scheduler.py never references the cache
module, so no scheduler operation may change it. -/
structure SysState where
  stats : ScrapingStats
  db : List Event
  mcache : MemCache := []
  saveCalled : Bool := false
deriving Repr

/-- app/scheduler.py, EventScheduler.scrape_all_sources (lines 130-157):
iterate the registered adapters in order; an adapter-level exception is
caught and that source contributes nothing; each returned event passes
through validate_event.  The adapters' outputs (or raised errors) are the
`outs` argument, one entry per registered scraper. -/
def scrapeAllSources (outs : List (Except String (List Event))) : List Event :=
  outs.foldl
    (fun acc o =>
      match o with
      | .error _ => acc
      | .ok evs => acc ++ evs.filter validateEvent)
    []

/-- The pre-filter loop of EventScheduler.run_scheduled_scraping
(lines 173-176): keep the events whose dedup triple is not already in the
store; `pf i` says whether the i-th existence query raises (in which case
event_exists returns False and the event is treated as new). -/
def prefilterNew (pf : Nat → Bool) (db : List Event) (events : List Event) :
    List Event :=
  (events.enum.filter (fun p =>
      !dhEventExists (pf p.1) db p.2.title p.2.date_start p.2.location_name)).map
    Prod.snd

/-- app/scheduler.py, EventScheduler.run_scheduled_scraping
(lines 159-192).  When no validated events arrive, the run is recorded as
failed with the fixed message and nothing touches the store.  Otherwise
new events are saved (save_events is only called when the pre-filter
leaves something), run statistics are updated, and update_event_stats
runs; if the latter raises, the enclosing try/except records an
additional failed run, which is the only way the body can raise.  The
function never propagates an exception to its caller. -/
def runScheduledScraping (env : Nat → EventFail) (pf : Nat → Bool)
    (outs : List (Except String (List Event))) (now : Nat) (st : SysState) :
    SysState :=
  let events := scrapeAllSources outs
  if events.isEmpty then
    { st with stats :=
        updateRunStats st.stats false 0 (some "No events found from any source") now }
  else
    let newEvents := prefilterNew pf st.db events
    let st1 :=
      if newEvents.isEmpty then st
      else { st with db := (saveEvents env st.db newEvents).2, saveCalled := true }
    let stats1 := updateRunStats st1.stats true events.length none now
    match updateEventStats stats1 events with
    | .ok stats2 => { st1 with stats := stats2 }
    | .error emsg => { st1 with stats := updateRunStats stats1 false 0 (some emsg) now }

/-- app/scheduler.py, EventScheduler.run_daily_cleanup (lines 208-220):
remove expired events; the scheduler holds a plain DatabaseHandler, so
the cache is untouched. -/
def runDailyCleanup (now : Nat) (st : SysState) : SysState :=
  { st with db := (deleteExpiredEvents st.db now).2 }

/-- app/scheduler.py, EventScheduler.run_weekly_cleanup (lines 194-206):
remove events started more than 7 days ago. -/
def runWeeklyCleanup (now : Nat) (st : SysState) : SysState :=
  { st with db := (deleteOldEvents st.db (now - pyDelta 7 0 0)).2 }

/-- The dedup-save step of one ingestion cycle in the failure-free
environment: the run_scheduled_scraping pre-filter against the store,
followed by DatabaseHandler.save_events on the survivors (skipped when
the pre-filter leaves nothing, as in the source). -/
def cycleSave (db : List Event) (events : List Event) :
    List SaveOutcome × List Event :=
  let newEvents := events.filter
    (fun e => !dhEventExists false db e.title e.date_start e.location_name)
  if newEvents.isEmpty then ([], db)
  else saveEvents okEnv db newEvents

/-! ## Source adapters (app/scrapers)

The HTTP client and HTML/regex extraction facility are external
collaborators (spec section 6); they are modelled by an environment: a
fetched page is a record of the fragments the scrapers select out of the
soup, and `fetch`/`headStatus` may raise.  Everything the scrapers
compute from those fragments (keyword classification, URL filters, date
synthesis, fallback logic, control flow) is embedded from the source. -/

/-- Python substring test `pat in s`. -/
def containsSub (s pat : String) : Bool :=
  chContains s.data pat.data

/-- `any(word in text for word in words)`. -/
def anyKeyword (text : String) (words : List String) : Bool :=
  words.any (fun w => containsSub text w)

/-- One container element on a denver.org listing page
(DenverEventsScraper._extract_event_from_container): the first heading,
the first anchor text, the first anchor href, and the paragraph text. -/
structure Container where
  headingText : Option String := none
  anchorText : Option String := none
  linkHref : Option String := none
  paraText : String := ""
deriving Repr

/-- The fragments a scraper extracts from one fetched page; each field
corresponds to one family of soup selectors in the source. -/
structure Page where
  eventIds : List String := []
  title : Option String := none
  description : String := ""
  fullText : String := ""
  audience : String := ""
  categoriesText : String := ""
  locationText : Option String := none
  titleCandidates : List String := []
  descCandidates : List String := []
  locationCandidates : List String := []
  urlCandidates : List String := []
  dateTexts : List String := []
  contentLinks : List String := []
  containers : List Container := []
  annualLinks : List (String × String) := []
  familyLinks : List (String × String) := []
deriving Repr

/-- The scraping environment: fallible network primitives plus the
regex/hash/random collaborators the adapters call. -/
structure ScrapeEnv where
  fetch : String → Except String Page
  headStatus : String → Except String Nat
  randDays : String → Nat
  randHours : String → Nat
  regexSearch : String → String → Bool
  idOf : String → Option String
  strHash : String → String
  cleanTitle : String → String
  normSpace : String → String

/-- The environment in which every network request raises (total
extraction failure); the regex collaborators are immaterial there. -/
def allFailEnv : ScrapeEnv where
  fetch := fun _ => .error "ConnectionError"
  headStatus := fun _ => .error "ConnectionError"
  randDays := fun _ => 0
  randHours := fun _ => 0
  regexSearch := fun _ _ => false
  idOf := fun _ => none
  strHash := fun _ => ""
  cleanTitle := fun s => s
  normSpace := fun s => s

/-- date_end is not before date_start. -/
def wfDates (e : Event) : Bool :=
  e.date_start ≤ e.date_end

/-! ### Denver Public Library scraper
(app/scrapers/denver_library_scraper.py) -/

/-- The regex pattern table of
DenverLibraryScraper._generate_specific_title (lines 316-347); the regex
engine is the environment's `regexSearch`. -/
def dlEventPatterns : List (String × String) :=
  [("(babies|baby|infant).*?(0.*?18.*?month|0.*?1.*?year)", "Baby Storytime"),
   ("babies.*?(story|rhyme|song)", "Baby Storytime"),
   ("(toddler|18.*?month.*?3.*?year)", "Toddler Storytime"),
   ("toddler.*?(story|activity)", "Toddler Storytime"),
   ("(preschool|ages.*?3.*?5|3.*?5.*?year)", "Preschool Storytime"),
   ("preschooler.*?(story|activity)", "Preschool Storytime"),
   ("family.*?(story|activity|program)", "Family Storytime"),
   ("children.*?0.*?5.*?year.*?(story|rhyme)", "Virtual Family Storytime"),
   ("(maker|stem|science|engineering|technology)", "Family STEAM Workshop"),
   ("(create|design|original|iron.*?on|patch)", "Creative Maker Workshop"),
   ("makercamp", "MakerCamp Workshop"),
   ("(teen|teenager|youth)", "Teen Maker Space"),
   ("(technology.*?assistance|tech.*?help|computer.*?help)", "Tech Help Session"),
   ("personalized.*?technology", "One-on-One Tech Help"),
   ("(story|stories|rhyme|song).*?(time|hour)", "Library Storytime")]

/-- DenverLibraryScraper._generate_specific_title (lines 304-371). -/
def dlGenerateSpecificTitle (env : ScrapeEnv) (description _eventUrl : String) :
    Option String :=
  if description = "" then none
  else
    let descLower := strToLower description
    match dlEventPatterns.find? (fun p => env.regexSearch p.1 descLower) with
    | some p => some p.2
    | none =>
      if containsSub descLower "story" && containsSub descLower "time" then
        some "Library Storytime"
      else if containsSub descLower "maker" || containsSub descLower "create" then
        some "Creative Workshop"
      else if containsSub descLower "baby" || containsSub descLower "infant" then
        some "Baby Program"
      else if containsSub descLower "toddler" then some "Toddler Program"
      else if containsSub descLower "family" then some "Family Program"
      else if containsSub descLower "tech" then some "Technology Program"
      else none

/-- The library branch address table of
DenverLibraryScraper._get_library_coordinates (lines 373-390); the float
coordinates are not modelled. -/
def dlLibraryAddresses : List (String × String) :=
  [("central", "10 W 14th Ave Pkwy, Denver, CO 80204"),
   ("montbello", "12955 Albrook Dr, Denver, CO 80239"),
   ("park hill", "4705 Montview Blvd, Denver, CO 80207"),
   ("green valley", "4856 N Telluride St, Denver, CO 80249"),
   ("valdez", "4690 Vine St, Denver, CO 80216"),
   ("virtual", "Online Program, Denver, CO")]

/-- The address component of _get_library_coordinates: first table key
contained in the lowercased location name, defaulting to Central. -/
def dlLibraryAddress (locationName : String) : String :=
  match dlLibraryAddresses.find? (fun kv => containsSub (strToLower locationName) kv.1) with
  | some kv => kv.2
  | none => "10 W 14th Ave Pkwy, Denver, CO 80204"

/-- DenverLibraryScraper._determine_age_group (lines 408-423). -/
def dlDetermineAgeGroup (text : String) : AgeGroup :=
  let t := strToLower text
  if anyKeyword t ["baby", "infant", "0-6", "0-12", "0-18"] then .baby
  else if anyKeyword t ["toddler", "preschool", "2-", "18m", "18 m"] then .toddler
  else if anyKeyword t ["teen", "youth", "13-", "12-", "teenager"] then .youth
  else .kid

/-- DenverLibraryScraper._extract_categories (lines 425-447). -/
def dlExtractCategories (title description : String) : List String :=
  let text := strToLower (title ++ " " ++ description)
  let cats :=
    (if anyKeyword text ["story", "book", "read", "literacy"] then
       ["Book Clubs & Storytime"] else []) ++
    (if anyKeyword text ["stem", "science", "tech", "maker", "coding"] then
       ["STEM & Technology"] else []) ++
    (if anyKeyword text ["craft", "art", "create", "making"] then
       ["Creating & Making"] else []) ++
    (if anyKeyword text ["baby", "toddler", "early", "0-", "2-"] then
       ["Early Learners (0-5)"] else []) ++
    (if anyKeyword text ["community", "resource", "support"] then
       ["Community Resources"] else []) ++
    (if anyKeyword text ["language", "spanish", "bilingual"] then
       ["Language Learning"] else []) ++
    (if anyKeyword text ["game", "play", "activity", "fun"] then
       ["Community Programs"] else []) ++
    (if anyKeyword text ["music", "sing", "dance", "performance"] then
       ["Movement & Performance"] else [])
  if cats.isEmpty then ["Community Programs"] else cats.take 2

/-- DenverLibraryScraper._is_family_relevant (lines 392-406). -/
def dlIsFamilyRelevant (e : Event) : Bool :=
  let text := strToLower (e.title ++ " " ++ e.description)
  anyKeyword text
    ["family", "kids", "children", "toddler", "preschool", "baby", "infant", "0-", "2-"] ||
  anyKeyword text
    ["storytime", "read", "literacy", "craft", "art", "create", "making", "music",
     "dance", "performance"]

/-- DenverLibraryScraper._extract_event_details (lines 183-302): fetch
the event page, take the raw title (None aborts), prefer a generated
specific title, infer the location, classify, and synthesize a start in
the next 1-30 days at a 9-17 hour plus a one-hour duration; any raised
exception is caught and yields None. -/
def dlExtractEventDetails (env : ScrapeEnv) (now : Nat) (eventUrl : String) :
    Option Event :=
  match env.fetch eventUrl with
  | .error _ => none
  | .ok page =>
    match page.title with
    | none => none
    | some rawTitle =>
      let description := page.description
      let title := (dlGenerateSpecificTitle env description eventUrl).getD rawTitle
      let location :=
        match page.locationText with
        | some l => l
        | none =>
          if containsSub (strToLower page.fullText) "online"
             || containsSub (strToLower page.fullText) "virtual"
             || containsSub (strToLower description) "zoom" then "Virtual Event"
          else if containsSub (strToLower description) "central library" then "Central Library"
          else if containsSub (strToLower description) "montbello" then
            "Montbello Branch Library"
          else "Denver Public Library"
      let allText := title ++ " " ++ description ++ " " ++ page.audience ++ " "
                     ++ page.categoriesText
      let startDate := now + pyDelta (env.randDays eventUrl) (env.randHours eventUrl) 0
      let eventId := (env.idOf eventUrl).getD (env.strHash eventUrl)
      some
        { title := title
          description := description
          date_start := startDate
          date_end := startDate + pyDelta 0 1 0
          location_name := location
          address := dlLibraryAddress location
          city := "Denver"
          age_group := dlDetermineAgeGroup allText
          categories := dlExtractCategories title (description ++ " " ++ page.categoriesText)
          price_type := .free
          source_url := eventUrl
          image_url := some ("https://picsum.photos/400/300?random=" ++ eventId) }

/-- One curated library event, from
DenverLibraryScraper._get_curated_library_events (lines 449-573). -/
def dlCuratedEvent (now : Nat) (i : Nat) (eventId : String) : Event :=
  if i = 0 then
    { title := "Virtual Family Storytime"
      description := "Stories, songs, rhymes and fun for children 0-5 years old and their grownups."
      date_start := now + pyDelta (3 + i) 10 0
      date_end := now + pyDelta (3 + i) 11 0
      location_name := "Virtual Event"
      address := "Online Program, Denver, CO"
      city := "Denver"
      age_group := .toddler
      categories := ["Book Clubs & Storytime", "Virtual Programs"]
      price_type := .free
      source_url := "https://denverlibrary.libcal.com/event/" ++ eventId
      image_url := some ("https://picsum.photos/400/300?random=" ++ eventId) }
  else if i = 1 then
    { title := "Baby Storytime"
      description := "Gentle introduction to books, songs, and rhymes designed specifically for babies 0-18 months and caregivers."
      date_start := now + pyDelta (5 + i) 11 0
      date_end := now + pyDelta (5 + i) 12 0
      location_name := "Central Library"
      address := "10 W 14th Ave Pkwy, Denver, CO 80204"
      city := "Denver"
      age_group := .baby
      categories := ["Book Clubs & Storytime", "Early Learners (0-5)"]
      price_type := .free
      source_url := "https://denverlibrary.libcal.com/event/" ++ eventId
      image_url := some ("https://picsum.photos/400/300?random=" ++ eventId) }
  else if i = 2 then
    { title := "Toddler Storytime"
      description := "Interactive stories, songs, and activities designed for toddlers ages 18 months to 3 years."
      date_start := now + pyDelta (7 + i) 10 0
      date_end := now + pyDelta (7 + i) 11 0
      location_name := "Montbello Branch Library"
      address := "12955 Albrook Dr, Denver, CO 80239"
      city := "Denver"
      age_group := .toddler
      categories := ["Book Clubs & Storytime", "Early Learners (0-5)"]
      price_type := .free
      source_url := "https://denverlibrary.libcal.com/event/" ++ eventId
      image_url := some ("https://picsum.photos/400/300?random=" ++ eventId) }
  else if i = 3 then
    { title := "Preschool Storytime"
      description := "Stories, songs, and activities for preschoolers ages 3-5 years and their families."
      date_start := now + pyDelta (9 + i) 15 0
      date_end := now + pyDelta (9 + i) 16 0
      location_name := "Park Hill Library"
      address := "4705 Montview Blvd, Denver, CO 80207"
      city := "Denver"
      age_group := .kid
      categories := ["Book Clubs & Storytime", "Early Learners (0-5)"]
      price_type := .free
      source_url := "https://denverlibrary.libcal.com/event/" ++ eventId
      image_url := some ("https://picsum.photos/400/300?random=" ++ eventId) }
  else if i = 4 then
    { title := "Family STEAM Workshop"
      description := "Hands-on science, technology, engineering, arts, and math activities for families with children 5-12."
      date_start := now + pyDelta (12 + i) 14 0
      date_end := now + pyDelta (12 + i) 15 0
      location_name := "Green Valley Ranch Library"
      address := "4856 N Telluride St, Denver, CO 80249"
      city := "Denver"
      age_group := .kid
      categories := ["STEM & Technology", "Creating & Making"]
      price_type := .free
      source_url := "https://denverlibrary.libcal.com/event/" ++ eventId
      image_url := some ("https://picsum.photos/400/300?random=" ++ eventId) }
  else
    { title := "Teen Maker Space"
      description := "Creative technology workshop for teens featuring 3D printing, coding, and digital design."
      date_start := now + pyDelta (15 + i) 16 0
      date_end := now + pyDelta (15 + i) 18 0
      location_name := "Central Library - Maker Space"
      address := "10 W 14th Ave Pkwy, Denver, CO 80204"
      city := "Denver"
      age_group := .youth
      categories := ["STEM & Technology", "Creating & Making"]
      price_type := .free
      source_url := "https://denverlibrary.libcal.com/event/" ++ eventId
      image_url := some ("https://picsum.photos/400/300?random=" ++ eventId) }

/-- The fixed curated fallback list of the library scraper (six events
with the LibCal event ids 14335135-14335140). -/
def dlCuratedLibraryEvents (now : Nat) : List Event :=
  (List.range 6).map (fun i => dlCuratedEvent now i (toString (14335135 + i)))

/-- Insert each element of `xs` into the accumulator unless already
present (Python set accumulation). -/
def addUnique (acc : List String) (xs : List String) : List String :=
  xs.foldl (fun a x => if a.contains x then a else a ++ [x]) acc

/-- Insertion into a descending-sorted list of strings. -/
def insertDesc (x : String) : List String → List String
  | [] => [x]
  | y :: ys => if decide (y < x) then x :: y :: ys else y :: insertDesc x ys

/-- `sorted(ids, reverse = True)`. -/
def sortDesc (l : List String) : List String :=
  l.foldr insertDesc []

/-- The LibCal pages searched for event ids
(DenverLibraryScraper._find_real_libcal_event_ids, lines 126-131). -/
def dlSearchUrls : List String :=
  ["https://denverlibrary.libcal.com/",
   "https://denverlibrary.libcal.com/calendar",
   "https://denverlibrary.libcal.com/calendar?t=d",
   "https://denverlibrary.libcal.com/calendar?t=m"]

/-- DenverLibraryScraper._find_real_libcal_event_ids (lines 121-181):
accumulate the ids extractable from each page (the four regex methods
are the page's `eventIds`), skipping pages whose fetch raises, stopping
once the main page (the URL ending in a slash) yielded something;
finally sort descending. -/
def dlFindRealEventIds (env : ScrapeEnv) : List String :=
  let st := dlSearchUrls.foldl
    (fun (st : List String × Bool) url =>
      if st.2 then st
      else
        match env.fetch url with
        | .error _ => st
        | .ok page =>
          let ids := addUnique st.1 page.eventIds
          (ids, strEndsWith url "/" && !ids.isEmpty))
    ([], false)
  sortDesc st.1

/-- One iteration of the per-id extraction loop in
DenverLibraryScraper._scrape_libcal_events (lines 61-89): HEAD-check the
event URL (exception or non-200 skips it), extract, keep only
family-relevant events with fresh titles, and stop at 8 events. -/
def dlPerIdStep (env : ScrapeEnv) (now : Nat) (st : List Event × Bool)
    (eventId : String) : List Event × Bool :=
  if st.2 then st
  else
    let eventUrl := "https://denverlibrary.libcal.com/event/" ++ eventId
    match env.headStatus eventUrl with
    | .error _ => st
    | .ok status =>
      if status ≠ 200 then st
      else
        match dlExtractEventDetails env now eventUrl with
        | none => st
        | some ev =>
          if dlIsFamilyRelevant ev && !st.1.any (fun ex => ex.title = ev.title) then
            let evs := st.1 ++ [ev]
            (evs, 8 ≤ evs.length)
          else st

/-- Strategies 1-3 of DenverLibraryScraper._scrape_libcal_events: find
real ids, extract up to 10 of them, and fall back to the curated list
when nothing was scraped (the enclosing try/except also falls back to
the curated list, which is the same value). -/
def dlScrapeLibcalBody (env : ScrapeEnv) (now : Nat) : List Event :=
  let ids := dlFindRealEventIds env
  let events :=
    if !ids.isEmpty then ((ids.take 10).foldl (dlPerIdStep env now) ([], false)).1
    else []
  if events.isEmpty then dlCuratedLibraryEvents now else events

/-- Strategy 4 of _scrape_libcal_events (lines 104-117): when fewer than
4 events were found, top up from the curated list, skipping source URLs
and titles already present, up to 8 events. -/
def dlSupplement (events curated : List Event) : List Event :=
  if events.length < 4 then
    let urls := events.map (fun e => e.source_url)
    let titles := events.map (fun e => e.title)
    curated.foldl
      (fun acc c =>
        if !urls.contains c.source_url && !titles.contains c.title && acc.length < 8
        then acc ++ [c] else acc)
      events
  else events

/-- DenverLibraryScraper._scrape_libcal_events (lines 46-119). -/
def dlScrapeLibcalEvents (env : ScrapeEnv) (now : Nat) :
    Except String (List Event) :=
  .ok (dlSupplement (dlScrapeLibcalBody env now) (dlCuratedLibraryEvents now))

/-- DenverLibraryScraper.scrape_events (lines 27-44): returns the LibCal
scrape, substituting the curated list if that raised. -/
def dlScrapeEvents (env : ScrapeEnv) (now : Nat) : Except String (List Event) :=
  match dlScrapeLibcalEvents env now with
  | .ok evs => .ok evs
  | .error _ => .ok (dlCuratedLibraryEvents now)

/-! ### Kids Out and About scraper
(app/scrapers/kids_out_about_scraper.py) -/

def koBaseUrl : String := "https://denver.kidsoutandabout.com"

/-- The listing pages scraped in order (lines 27-35). -/
def koEventPages : List String :=
  ["/event-list",
   "/content/things-do-weekend-and-around-denver",
   "/content/things-do-next-weekend-and-around-denver",
   "/content/free-things-do-weekend-and-around-denver",
   "/content/free-things-do-next-weekend-and-around-denver",
   "/view/everything-free",
   "/"]

/-- KidsOutAboutScraper._looks_like_event_url skip patterns
(lines 117-122). -/
def koSkipPatterns : List String :=
  ["/user", "/search", "/node", "/admin", "/category/organization",
   "/sites/", "/modules/", "/themes/", "javascript:", "mailto:",
   "/localadvertising", "/change-region", "//kidsoutandabout.com",
   "/content/how-list-your-organization", "/content/terms-service"]

/-- KidsOutAboutScraper._looks_like_event_url event indicators
(lines 129-133). -/
def koEventIndicators : List String :=
  ["/content/", "festival", "concert", "story-time",
   "camp", "class", "workshop", "show", "performance", "activity"]

/-- KidsOutAboutScraper._looks_like_event_url (lines 111-134). -/
def koLooksLikeEventUrl (url : String) : Bool :=
  if url = "" || !containsSub url "kidsoutandabout.com" then false
  else if koSkipPatterns.any (fun p => containsSub url p) then false
  else koEventIndicators.any (fun ind => containsSub (strToLower url) ind)

/-- KidsOutAboutScraper._is_url_specific generic patterns
(lines 344-350). -/
def koGenericPatterns : List String :=
  ["entertainmentcalendar.com/", "kidsoutandabout.com/", "facebook.com/",
   "instagram.com/", "twitter.com/"]

/-- KidsOutAboutScraper._is_url_specific (lines 339-357). -/
def koIsUrlSpecific (url : String) : Bool :=
  if url = "" then false
  else !koGenericPatterns.any (fun p => strEndsWith url p || containsSub url (p ++ "?"))

/-- The raw title selected by _extract_event_details (lines 145-155):
the first selector text longer than 5 characters breaks the loop;
otherwise the last found text survives, and a falsy final title aborts
extraction. -/
def koRawTitle (cands : List String) : Option String :=
  match cands.find? (fun t => 5 < t.length) with
  | some t => some t
  | none =>
    match cands.getLast? with
    | some t => if t = "" then none else some t
    | none => none

/-- KidsOutAboutScraper._extract_description (lines 207-225): the first
candidate longer than 20 characters, truncated to 500, with the fixed
fallback sentence. -/
def koExtractDescription (cands : List String) : String :=
  match cands.find? (fun d => 20 < d.length) with
  | some d => strTake d 500
  | none => "Fun family activity in the Denver area"

/-- KidsOutAboutScraper._extract_location (lines 227-244): the first
candidate longer than 3 characters, else "Denver Area". -/
def koExtractLocation (cands : List String) : String :=
  match cands.find? (fun l => 3 < l.length) with
  | some l => l
  | none => "Denver Area"

/-- KidsOutAboutScraper._extract_organizer_url (lines 246-266): the
first candidate href that is absolute and off-site, else the event page
URL. -/
def koExtractOrganizerUrl (cands : List String) (fallbackUrl : String) : String :=
  match cands.find? (fun u => strStartsWith u "http" && !containsSub u "kidsoutandabout.com") with
  | some u => u
  | none => fallbackUrl

/-- KidsOutAboutScraper._extract_event_dates (lines 268-299): a date
text containing 2025 or 2024 maps to a fixed default instant, otherwise
the synthesized default is 30 days out at 10:00 local; every branch adds
a two-hour duration. -/
def koExtractEventDates (dateTexts : List String) (now : Nat) : Nat × Nat :=
  match dateTexts.find? (fun dt => containsSub dt "2025" || containsSub dt "2024") with
  | some dt =>
    if containsSub dt "2025" then
      (pyDatetime 2025 6 15 10 0, pyDatetime 2025 6 15 10 0 + pyDelta 0 2 0)
    else
      (pyDatetime 2024 12 31 10 0, pyDatetime 2024 12 31 10 0 + pyDelta 0 2 0)
  | none =>
    let startDate := pyReplaceHour (now + pyDelta 30 0 0) 10
    (startDate, startDate + pyDelta 0 2 0)

/-- KidsOutAboutScraper._determine_age_group (lines 301-312). -/
def koDetermineAgeGroup (title description : String) : AgeGroup :=
  let text := strToLower (title ++ " " ++ description)
  if anyKeyword text ["baby", "infant", "0-2", "newborn"] then .baby
  else if anyKeyword text ["toddler", "2-4", "preschool", "early"] then .toddler
  else if anyKeyword text ["teen", "youth", "13-", "high school"] then .youth
  else .kid

/-- KidsOutAboutScraper._extract_categories (lines 314-337). -/
def koExtractCategories (title description : String) : List String :=
  let text := strToLower (title ++ " " ++ description)
  let cats :=
    (if anyKeyword text ["music", "concert", "sing"] then ["music"] else []) ++
    (if anyKeyword text ["art", "craft", "paint", "draw"] then ["art"] else []) ++
    (if anyKeyword text ["outdoor", "park", "nature", "hike"] then ["outdoor"] else []) ++
    (if anyKeyword text ["story", "book", "read"] then ["reading"] else []) ++
    (if anyKeyword text ["science", "stem", "tech"] then ["education"] else []) ++
    (if anyKeyword text ["sport", "game", "play"] then ["active"] else []) ++
    (if anyKeyword text ["museum", "exhibit"] then ["museum"] else []) ++
    (if anyKeyword text ["festival", "celebration"] then ["festival"] else [])
  if cats.isEmpty then ["family"] else cats.take 3

/-- KidsOutAboutScraper._is_valid_event (lines 359-372). -/
def koIsValidEvent (e : Event) : Bool :=
  if e.title = "" || e.title.length < 5 then false
  else if e.source_url = "" || !koIsUrlSpecific e.source_url then false
  else !anyKeyword (strToLower e.title) ["survey", "vote", "newsletter", "advertising"]

/-- KidsOutAboutScraper._extract_event_details (lines 136-205); note
that no image_url is ever set on extracted events, so the schema default
None applies; any raised exception is caught and yields None. -/
def koExtractEventDetails (env : ScrapeEnv) (now : Nat) (eventUrl : String) :
    Option Event :=
  match env.fetch eventUrl with
  | .error _ => none
  | .ok page =>
    match koRawTitle page.titleCandidates with
    | none => none
    | some rawTitle =>
      let title := env.cleanTitle rawTitle
      let description := koExtractDescription page.descCandidates
      let location := koExtractLocation page.locationCandidates
      let organizerUrl := koExtractOrganizerUrl page.urlCandidates eventUrl
      let finalUrl :=
        if organizerUrl ≠ "" && koIsUrlSpecific organizerUrl then organizerUrl
        else eventUrl
      let dates := koExtractEventDates page.dateTexts now
      some
        { title := title
          description := description
          date_start := dates.1
          date_end := dates.2
          location_name := if location = "" then "Denver Area" else location
          address := if location = "" then "Denver, CO" else location
          city := "Denver"
          age_group := koDetermineAgeGroup title description
          categories := koExtractCategories title description
          price_type :=
            if containsSub (strToLower (title ++ description)) "free" then .free else .paid
          source_url := finalUrl }

/-- KidsOutAboutScraper._scrape_page_events (lines 70-109): fetch the
listing page (exceptions yield no events), absolutize and filter the
content links, process at most 5 fresh ones, marking each processed and
keeping the valid extractions.  Returns the new events and the updated
processed set. -/
def koScrapePageEvents (env : ScrapeEnv) (now : Nat) (pagePath : String)
    (processed : List String) : List Event × List String :=
  match env.fetch (koBaseUrl ++ pagePath) with
  | .error _ => ([], processed)
  | .ok page =>
    let links := addUnique []
      ((page.contentLinks.map
          (fun href => if strStartsWith href "/" then koBaseUrl ++ href else href)).filter
        (fun u => !processed.contains u && koLooksLikeEventUrl u))
    (links.take 5).foldl
      (fun (st : List Event × List String) u =>
        if st.2.contains u then st
        else
          let processed1 := st.2 ++ [u]
          match koExtractEventDetails env now u with
          | none => (st.1, processed1)
          | some ev =>
            if koIsValidEvent ev then (st.1 ++ [ev], processed1)
            else (st.1, processed1))
      ([], processed)

/-- The curated fallback list of KidsOutAboutScraper._get_curated_events
(lines 374-459). -/
def koCuratedEvents (now : Nat) : List Event :=
  [{ title := "Denver Zoo Family Adventures"
     description := "Explore amazing animals with educational programs designed for families with young children."
     date_start := now + pyDelta 15 10 0
     date_end := now + pyDelta 15 12 0
     location_name := "Denver Zoo"
     address := "2300 Steele St, Denver, CO 80205"
     city := "Denver"
     age_group := .kid
     categories := ["animals", "education", "outdoor"]
     price_type := .paid
     source_url := "https://denverzoo.org/events/family-adventures"
     image_url := some "https://picsum.photos/400/300?random=zoo" },
   { title := "Children\x27s Museum Story Adventures"
     description := "Interactive storytelling with hands-on activities for toddlers and preschoolers."
     date_start := now + pyDelta 8 10 0
     date_end := now + pyDelta 8 11 0
     location_name := "Children\x27s Museum of Denver"
     address := "2121 Children\x27s Museum Dr, Denver, CO 80211"
     city := "Denver"
     age_group := .toddler
     categories := ["reading", "interactive", "museum"]
     price_type := .paid
     source_url := "https://mychildsmuseum.org/story-adventures"
     image_url := some "https://picsum.photos/400/300?random=museum" },
   { title := "Denver Botanic Gardens Family Nature Days"
     description := "Family-friendly nature exploration with scavenger hunts and plant discovery activities."
     date_start := now + pyDelta 22 9 0
     date_end := now + pyDelta 22 11 0
     location_name := "Denver Botanic Gardens"
     address := "1007 York St, Denver, CO 80206"
     city := "Denver"
     age_group := .kid
     categories := ["nature", "outdoor", "education"]
     price_type := .paid
     source_url := "https://botanicgardens.org/family-nature-days"
     image_url := some "https://picsum.photos/400/300?random=garden" },
   { title := "Washington Park Playground Meetup"
     description := "Free community playground meetup for families with toddlers and young children."
     date_start := now + pyDelta 5 10 0
     date_end := now + pyDelta 5 12 0
     location_name := "Washington Park"
     address := "701 S Franklin St, Denver, CO 80209"
     city := "Denver"
     age_group := .toddler
     categories := ["outdoor", "social", "playground"]
     price_type := .free
     source_url := "https://denvergov.org/parks/washington-park-playground"
     image_url := some "https://picsum.photos/400/300?random=playground" },
   { title := "Chainsaws and Chuckwagons 2025"
     description := "Annual family festival featuring chainsaw carving demonstrations, live music, food trucks, and activities for kids of all ages."
     date_start := pyDatetime 2025 8 16 16 0
     date_end := pyDatetime 2025 8 16 20 0
     location_name := "Centennial Park"
     address := "630 Eighth Street, Frederick, CO 80530"
     city := "Frederick"
     age_group := .kid
     categories := ["festival", "art", "family"]
     price_type := .free
     source_url := "https://www.frederickco.gov/692/Chainsaws-Chuckwagons"
     image_url := some "https://picsum.photos/400/300?random=festival" }]

/-- KidsOutAboutScraper.scrape_events (lines 44-68): scrape the listing
pages in order until 15 events accumulate, append the curated events
whose URLs are fresh, and return the first 15. -/
def koScrapeEvents (env : ScrapeEnv) (now : Nat) : Except String (List Event) :=
  let st := koEventPages.foldl
    (fun (st : (List Event × List String) × Bool) pagePath =>
      if st.2 then st
      else
        let r := koScrapePageEvents env now pagePath st.1.2
        let all := st.1.1 ++ r.1
        ((all, r.2), 15 ≤ all.length))
    (([], []), false)
  let withCurated := (koCuratedEvents now).foldl
    (fun (st : List Event × List String) c =>
      if st.2.contains c.source_url then st
      else (st.1 ++ [c], st.2 ++ [c.source_url]))
    st.1
  .ok (withCurated.1.take 15)

/-! ### Denver.org scraper (app/scrapers/denver_events_scraper.py) -/

def deBaseUrl : String := "https://www.denver.org"

/-- DenverEventsScraper._determine_age_group (lines 299-310). -/
def deDetermineAgeGroup (title description : String) : AgeGroup :=
  let text := strToLower (title ++ " " ++ description)
  if anyKeyword text ["baby", "infant", "0-", "newborn"] then .baby
  else if anyKeyword text ["toddler", "preschool", "2-", "3-", "family"] then .toddler
  else if anyKeyword text ["teen", "youth", "13-", "teenage"] then .youth
  else .kid

/-- DenverEventsScraper._extract_categories (lines 312-337). -/
def deExtractCategories (title description eventType : String) : List String :=
  let text := strToLower (title ++ " " ++ description)
  let base :=
    if eventType = "annual" then ["festivals"]
    else if eventType = "attraction" then ["attractions"]
    else ["events"]
  let cats := base ++
    (if anyKeyword text ["music", "concert", "festival"] then ["music"] else []) ++
    (if anyKeyword text ["art", "museum", "gallery"] then ["arts"] else []) ++
    (if anyKeyword text ["outdoor", "park", "nature"] then ["outdoor"] else []) ++
    (if anyKeyword text ["food", "dining", "restaurant"] then ["food"] else []) ++
    (if anyKeyword text ["sports", "game", "athletics"] then ["sports"] else []) ++
    (if anyKeyword text ["family", "kids", "children"] then ["family"] else [])
  if cats.isEmpty then ["entertainment"] else cats.take 2

/-- DenverEventsScraper._create_event (lines 247-297): normalize the
title (regex whitespace collapse via the environment), reject short
titles, classify, and synthesize dates by event type: annual events are
pinned mid-summer for three days, attraction visits run tomorrow
9:00-17:00, other events run five days out 19:00-22:00.  No image_url is
set.  The try/except around the body catches nothing in the model since
every step is pure. -/
def deCreateEvent (env : ScrapeEnv) (now : Nat)
    (title description url eventType : String) : Option Event :=
  let title := env.normSpace title
  if title.length < 5 then none
  else
    let dates :=
      if eventType = "annual" then
        (pyDatetime 2025 7 15 10 0, pyDatetime 2025 7 15 10 0 + pyDelta 3 0 0)
      else if eventType = "attraction" then
        let s := pyReplaceHour (now + pyDelta 1 10 0) 9
        (s, s + pyDelta 0 8 0)
      else
        let s := pyReplaceHour (now + pyDelta 5 10 0) 19
        (s, s + pyDelta 0 3 0)
    some
      { title := title
        description := description
        date_start := dates.1
        date_end := dates.2
        location_name := "Denver, CO"
        address := "Denver, Colorado"
        city := "Denver"
        age_group := deDetermineAgeGroup title description
        categories := deExtractCategories title description eventType
        price_type :=
          if containsSub (strToLower (title ++ description)) "free" then .free else .paid
        source_url := url }

/-- DenverEventsScraper._extract_event_from_container (lines 189-227):
title from the first heading, falling back to the first anchor; short
titles abort; the first href is absolutized with a fixed fallback; the
description is the paragraph text truncated to 200. -/
def deExtractEventFromContainer (env : ScrapeEnv) (now : Nat) (c : Container) :
    Option Event :=
  match c.headingText <|> c.anchorText with
  | none => none
  | some title =>
    if title.length < 5 then none
    else
      let href :=
        match c.linkHref with
        | some h => if strStartsWith h "/" then deBaseUrl ++ h else h
        | none => deBaseUrl ++ "/events/"
      deCreateEvent env now title (strTake c.paraText 200) href "event"

/-- The main listing URLs (lines 62-66). -/
def deMainUrls : List String :=
  ["https://www.denver.org/events/",
   "https://www.denver.org/events/this-weekend/",
   "https://www.denver.org/things-to-do/"]

/-- DenverEventsScraper._scrape_main_events (lines 57-99): per-URL
try/except, two containers per page, stopping at the first URL that
yielded events. -/
def deScrapeMainEvents (env : ScrapeEnv) (now : Nat) : List Event :=
  (deMainUrls.foldl
    (fun (st : List Event × Bool) url =>
      if st.2 then st
      else
        match env.fetch url with
        | .error _ => st
        | .ok page =>
          let evs := (page.containers.take 2).foldl
            (fun acc c =>
              match deExtractEventFromContainer env now c with
              | some e => acc ++ [e]
              | none => acc)
            st.1
          (evs, !evs.isEmpty))
    ([], false)).1

/-- DenverEventsScraper._scrape_annual_events (lines 101-140): links
whose text mentions an annual-event term and is longer than 10
characters become annual events; relative hrefs are absolutized and
non-http hrefs skipped; at most two are kept. -/
def deScrapeAnnualEvents (env : ScrapeEnv) (now : Nat) : List Event :=
  match env.fetch (deBaseUrl ++ "/events/annual-events/") with
  | .error _ => []
  | .ok page =>
    let annual := page.annualLinks.foldl
      (fun acc p =>
        let text := p.1
        let href := p.2
        if anyKeyword (strToLower text) ["festival", "fair", "market", "celebration"]
           && 10 < text.length then
          let url :=
            if strStartsWith href "/" then some (deBaseUrl ++ href)
            else if strStartsWith href "http" then some href
            else none
          match url with
          | none => acc
          | some u =>
            match deCreateEvent env now text
                ("Annual " ++ text ++ " celebration in Denver") u "annual" with
            | some e => acc ++ [e]
            | none => acc
        else acc)
      []
    annual.take 2

/-- The family listing URLs (lines 147-150). -/
def deFamilyUrls : List String :=
  ["https://www.denver.org/things-to-do/family/",
   "https://www.denver.org/things-to-do/attractions/"]

/-- DenverEventsScraper._scrape_family_events (lines 142-187): the first
URL that fetches is processed (five links, attraction keywords, length
over 15) and the loop breaks; fetch errors move on to the next URL. -/
def deScrapeFamilyEvents (env : ScrapeEnv) (now : Nat) : List Event :=
  (deFamilyUrls.foldl
    (fun (st : List Event × Bool) url =>
      if st.2 then st
      else
        match env.fetch url with
        | .error _ => st
        | .ok page =>
          let evs := (page.familyLinks.take 5).foldl
            (fun acc p =>
              let text := p.1
              let href := p.2
              if 15 < text.length
                 && anyKeyword (strToLower text) ["museum", "zoo", "park", "center"] then
                let url2 :=
                  if strStartsWith href "/" then some (deBaseUrl ++ href)
                  else if strStartsWith href "http" then some href
                  else none
                match url2 with
                | none => acc
                | some u =>
                  match deCreateEvent env now (text ++ " Family Programs")
                      ("Family-friendly activities and programs at " ++ text)
                      u "attraction" with
                  | some e => acc ++ [e]
                  | none => acc
              else acc)
            st.1
          (evs, true))
    ([], false)).1

/-- The curated fallback list of
DenverEventsScraper._get_curated_denver_events (lines 339-440). -/
def deCuratedEvents (now : Nat) : List Event :=
  [{ title := "Denver Cherry Blossom Festival 2025"
     description := "Annual celebration of Japanese culture with food, performances, and beautiful cherry blossoms in Sakura Square."
     date_start := pyDatetime 2025 6 28 10 0
     date_end := pyDatetime 2025 6 29 18 0
     location_name := "Sakura Square"
     address := "1255 19th St, Denver, CO 80202"
     city := "Denver"
     age_group := .kid
     categories := ["festivals", "cultural", "family"]
     price_type := .free
     source_url := "https://www.cherryblossomdenver.org/"
     image_url := some "https://picsum.photos/400/300?random=cherry" },
   { title := "Great American Beer Festival 2025"
     description := "Premier beer festival featuring craft breweries from across America with family-friendly areas."
     date_start := pyDatetime 2025 10 2 12 0
     date_end := pyDatetime 2025 10 4 22 0
     location_name := "Colorado Convention Center"
     address := "700 14th St, Denver, CO 80202"
     city := "Denver"
     age_group := .youth
     categories := ["festivals", "food", "family"]
     price_type := .paid
     source_url := "https://www.greatamericanbeerfestival.com/"
     image_url := some "https://picsum.photos/400/300?random=beer" },
   { title := "Denver Restaurant Week 2025"
     description := "Annual dining event featuring special menus at Denver\x27s best restaurants, with family-friendly options."
     date_start := pyDatetime 2025 2 21 17 0
     date_end := pyDatetime 2025 3 2 21 0
     location_name := "Multiple Denver Restaurants"
     address := "Various Locations, Denver, CO"
     city := "Denver"
     age_group := .kid
     categories := ["food", "family", "dining"]
     price_type := .paid
     source_url := "https://www.denver.org/restaurants/denver-restaurant-week/"
     image_url := some "https://picsum.photos/400/300?random=restaurant" },
   { title := "Denver Art Museum Family Programs"
     description := "Ongoing family-friendly art programs, workshops, and interactive exhibits designed for children and families."
     date_start := now + pyDelta 2 10 0
     date_end := now + pyDelta 2 16 0
     location_name := "Denver Art Museum"
     address := "1100 W 14th Ave Pkwy, Denver, CO 80204"
     city := "Denver"
     age_group := .kid
     categories := ["arts", "museum", "family"]
     price_type := .paid
     source_url := "https://www.denverartmuseum.org/en/visit/families"
     image_url := some "https://picsum.photos/400/300?random=art" },
   { title := "Denver Museum of Nature & Science Explorer Programs"
     description := "Interactive science programs and planetarium shows designed for curious minds of all ages."
     date_start := now + pyDelta 8 9 0
     date_end := now + pyDelta 8 17 0
     location_name := "Denver Museum of Nature & Science"
     address := "2001 Colorado Blvd, Denver, CO 80205"
     city := "Denver"
     age_group := .kid
     categories := ["science", "museum", "education"]
     price_type := .paid
     source_url := "https://www.dmns.org/visit/families/"
     image_url := some "https://picsum.photos/400/300?random=science" },
   { title := "Denver Zoo Wild Encounters"
     description := "Special animal encounters and educational programs designed for families with young children."
     date_start := now + pyDelta 15 10 0
     date_end := now + pyDelta 15 15 0
     location_name := "Denver Zoo"
     address := "2300 Steele St, Denver, CO 80205"
     city := "Denver"
     age_group := .kid
     categories := ["animals", "education", "outdoor"]
     price_type := .paid
     source_url := "https://denverzoo.org/animals/wild-encounters/"
     image_url := some "https://picsum.photos/400/300?random=zooanimals" }]

/-- The URL-based duplicate removal of DenverEventsScraper.scrape_events
(lines 42-48). -/
def dedupBySourceUrl (events : List Event) : List Event :=
  (events.foldl
    (fun (st : List Event × List String) e =>
      if st.2.contains e.source_url then st
      else (st.1 ++ [e], st.2 ++ [e.source_url]))
    ([], [])).1

/-- DenverEventsScraper.scrape_events (lines 26-55): gather the three
sections plus the curated events, dedupe by source URL, return the top
6; if the body raised, return the curated list. -/
def deScrapeEvents (env : ScrapeEnv) (now : Nat) : Except String (List Event) :=
  let events := deScrapeMainEvents env now ++ deScrapeAnnualEvents env now
                ++ deScrapeFamilyEvents env now ++ deCuratedEvents now
  .ok ((dedupBySourceUrl events).take 6)

/-! ## Helper lemmas about the dedup-save loop -/

/-- Whether the store already holds a loose (title, location_name) match
for the event. -/
def looseHit (db : List Event) (e : Event) : Bool :=
  db.any (fun r => r.title = e.title && r.location_name = e.location_name)

theorem okEnv_apply (i : Nat) : okEnv i = ({} : EventFail) := rfl

theorem saveStep_db_cases (f : EventFail) (db : List Event) (e : Event) :
    (saveStep f db e).2 = db ∨ (saveStep f db e).2 = db ++ [e] := by
  by_cases h1 : dhEventExists f.tripleRaises db e.title e.date_start e.location_name = true
  · left; simp [saveStep, h1]
  · by_cases h2 : (getEventsByTitleAndLocation f.looseRaises db e.title e.location_name).isEmpty = true
    · by_cases h3 : shEventExists f.innerExistsRaises db e = true
      · left; simp [saveStep, insertEvent, h1, h2, h3]
      · by_cases h4 : f.insertRaises = true
        · left; simp [saveStep, insertEvent, h1, h2, h3, h4]
        · right; simp [saveStep, insertEvent, h1, h2, h3, h4]
    · left; simp [saveStep, h1, h2]

theorem saveEventsAux_mem (env : Nat → EventFail) (l : List Event) :
    ∀ (i : Nat) (db : List Event) (x : Event), x ∈ db →
      x ∈ (saveEventsAux env i db l).2 := by
  induction l with
  | nil => intro i db x hx; simpa [saveEventsAux] using hx
  | cons e rest ih =>
    intro i db x hx
    simp only [saveEventsAux]
    apply ih
    rcases saveStep_db_cases (env i) db e with h | h
    · rw [h]; exact hx
    · rw [h]; exact List.mem_append_left _ hx

theorem saveEventsAux_length (env : Nat → EventFail) (l : List Event) :
    ∀ (i : Nat) (db : List Event), (saveEventsAux env i db l).1.length = l.length := by
  induction l with
  | nil => intro i db; rfl
  | cons e rest ih => intro i db; simp [saveEventsAux, ih]

theorem looseHit_of_triple (db : List Event) (e : Event)
    (h : dhEventExists false db e.title e.date_start e.location_name = true) :
    looseHit db e = true := by
  simp only [dhEventExists, Bool.false_eq_true, if_false, List.any_eq_true] at h
  rcases h with ⟨r, hr, hmatch⟩
  simp only [tripleMatches, Bool.and_eq_true, decide_eq_true_eq] at hmatch
  simp only [looseHit, List.any_eq_true]
  exact ⟨r, hr, by simp [hmatch.1.1, hmatch.2]⟩

theorem looseHit_mono (db db2 : List Event) (e : Event)
    (hsub : ∀ x, x ∈ db → x ∈ db2) (h : looseHit db e = true) :
    looseHit db2 e = true := by
  simp only [looseHit, List.any_eq_true] at h ⊢
  rcases h with ⟨r, hr, hp⟩
  exact ⟨r, hsub r hr, hp⟩

theorem looseList_ne_nil (db : List Event) (e : Event) (h : looseHit db e = true) :
    (getEventsByTitleAndLocation false db e.title e.location_name).isEmpty = false := by
  simp only [looseHit, List.any_eq_true] at h
  rcases h with ⟨r, hr, hp⟩
  simp only [getEventsByTitleAndLocation, Bool.false_eq_true, if_false]
  cases hf : db.filter (fun r => r.title = e.title && r.location_name = e.location_name) with
  | nil =>
    exfalso
    have hmem : r ∈ db.filter (fun r => r.title = e.title && r.location_name = e.location_name) :=
      List.mem_filter.mpr ⟨hr, hp⟩
    rw [hf] at hmem
    cases hmem
  | cons x xs => simp

theorem saveStep_looseHit (db : List Event) (e : Event) :
    looseHit (saveStep {} db e).2 e = true := by
  by_cases h1 : dhEventExists false db e.title e.date_start e.location_name = true
  · have h2 := looseHit_of_triple db e h1
    rcases saveStep_db_cases {} db e with h | h
    · rw [h]; exact h2
    · rw [h]; exact looseHit_mono db _ e (fun x hx => List.mem_append_left _ hx) h2
  · by_cases h2 : (getEventsByTitleAndLocation false db e.title e.location_name).isEmpty = true
    · have h3 : ¬ (shEventExists false db e = true) := by
        simpa only [dhEventExists, shEventExists, Bool.false_eq_true, if_false] using h1
      have hstep : (saveStep ({} : EventFail) db e).2 = db ++ [e] := by
        simp [saveStep, insertEvent, h1, h2, h3]
      rw [hstep]
      simp only [looseHit, List.any_eq_true]
      exact ⟨e, List.mem_append_right _ (List.mem_singleton.mpr rfl), by simp⟩
    · have hstep : (saveStep ({} : EventFail) db e).2 = db := by
        simp [saveStep, h1, h2]
      rw [hstep]
      cases hl : looseHit db e with
      | true => rfl
      | false =>
        exfalso
        apply h2
        simp only [getEventsByTitleAndLocation, Bool.false_eq_true, if_false]
        simp only [looseHit] at hl
        rw [List.isEmpty_iff, List.filter_eq_nil_iff]
        intro r hr
        have := List.any_eq_false.mp hl r hr
        simpa using this

theorem saveEventsAux_looseHit (l : List Event) :
    ∀ (i : Nat) (db : List Event) (e : Event), e ∈ l →
      looseHit (saveEventsAux okEnv i db l).2 e = true := by
  induction l with
  | nil => intro i db e he; cases he
  | cons a rest ih =>
    intro i db e he
    simp only [saveEventsAux]
    rcases List.mem_cons.mp he with rfl | hmem
    · exact looseHit_mono _ _ e
        (fun x hx => saveEventsAux_mem okEnv rest (i + 1) _ x hx)
        (saveStep_looseHit db e)
    · exact ih (i + 1) _ e hmem

theorem saveEventsAux_all_loose_skips (l : List Event) :
    ∀ (i : Nat) (db : List Event), (∀ e ∈ l, looseHit db e = true) →
      (saveEventsAux okEnv i db l).2 = db ∧
      ∀ o ∈ (saveEventsAux okEnv i db l).1, o ≠ SaveOutcome.saved := by
  induction l with
  | nil =>
    intro i db _
    refine ⟨rfl, ?_⟩
    intro o ho
    simp [saveEventsAux] at ho
  | cons a rest ih =>
    intro i db h
    have ha := h a (List.mem_cons_self a rest)
    have hstep : (saveStep ({} : EventFail) db a).2 = db ∧
        ((saveStep ({} : EventFail) db a).1 = SaveOutcome.skippedTriple ∨
         (saveStep ({} : EventFail) db a).1 = SaveOutcome.skippedLoose) := by
      by_cases h1 : dhEventExists false db a.title a.date_start a.location_name = true
      · constructor
        · simp [saveStep, h1]
        · left; simp [saveStep, h1]
      · have h2 := looseList_ne_nil db a ha
        constructor
        · simp [saveStep, h1, h2]
        · right; simp [saveStep, h1, h2]
    have hrest : ∀ e ∈ rest, looseHit ((saveStep ({} : EventFail) db a).2) e = true := by
      intro e he
      rw [hstep.1]
      exact h e (List.mem_cons_of_mem a he)
    obtain ⟨hdb, hout⟩ := ih (i + 1) _ hrest
    constructor
    · simp only [saveEventsAux, okEnv_apply]
      rw [hdb, hstep.1]
    · simp only [saveEventsAux, okEnv_apply]
      intro o ho
      rcases List.mem_cons.mp ho with rfl | ho2
      · rcases hstep.2 with h | h <;> simp [h]
      · exact hout o ho2

/-! ## Claims -/

/-- C9: if the underlying existence query raises, DatabaseHandler.event_exists
returns False instead of propagating, so with all store reads failing the
event is treated as new and reaches the insert path (and is inserted when
the insert itself succeeds). -/
theorem store_read_failure_treats_event_as_new :
    ∀ (db : List Event) (title : String) (ds : Nat) (loc : String) (e : Event),
      dhEventExists true db title ds loc = false ∧
      saveStep readsFail db e = (SaveOutcome.saved, db ++ [e]) := by
  intro db title ds loc e
  exact ⟨rfl, rfl⟩

/-- A concrete event whose image_url is present but empty: every other
required field is non-empty. -/
def emptyImageEvent : Event :=
  { title := "Toddler Art Hour"
    description := "Painting for toddlers"
    date_start := 100
    date_end := 200
    location_name := "Main Hall"
    address := "1 Main St"
    city := "Denver"
    age_group := .toddler
    categories := ["art"]
    price_type := .free
    source_url := "https://example.org/events/1"
    image_url := some "" }

/-- C6 counterexample: the claimed iff (rejection exactly when a textual
field is missing/empty or image_url is missing) fails on an event whose
image_url is present but empty — validate_event rejects it via Python
falsiness even though none of the claimed conditions hold. -/
theorem validate_event_missing_image_iff_fails :
    ¬ (validateEvent emptyImageEvent = false ↔
        (emptyImageEvent.title = "" ∨ emptyImageEvent.description = "" ∨
         emptyImageEvent.location_name = "" ∨ emptyImageEvent.address = "" ∨
         emptyImageEvent.image_url = none)) := by
  decide

/-- C6 amended: validate_event returns False exactly when one of title,
description, location_name, address is empty or image_url is missing or
empty; equivalently it returns True exactly when all five are non-empty
(image_url present and non-empty). -/
theorem validate_event_rejects_iff :
    ∀ e : Event,
      (validateEvent e = false ↔
        (e.title = "" ∨ e.description = "" ∨ e.location_name = "" ∨ e.address = "" ∨
         e.image_url.getD "" = "")) ∧
      (validateEvent e = true ↔
        (e.title ≠ "" ∧ e.description ≠ "" ∧ e.location_name ≠ "" ∧ e.address ≠ "" ∧
         e.image_url.getD "" ≠ "")) := by
  intro e
  by_cases h1 : e.image_url.getD "" = "" <;>
    by_cases h2 : e.title = "" <;>
    by_cases h3 : e.description = "" <;>
    by_cases h4 : e.location_name = "" <;>
    by_cases h5 : e.address = "" <;>
    simp [validateEvent, ensureImageUrl, h1, h2, h3, h4, h5]

/-- The statistics object after a sequence of update_run_stats calls
(success flag, events count, error, wall-clock) starting from a fresh
ScrapingStats. -/
def runUpdates (calls : List (Bool × Nat × Option String × Nat)) : ScrapingStats :=
  calls.foldl (fun s c => updateRunStats s c.1 c.2.1 c.2.2.1 c.2.2.2) {}

theorem runUpdates_invariant (calls : List (Bool × Nat × Option String × Nat)) :
    (runUpdates calls).total_runs =
      (runUpdates calls).successful_runs + (runUpdates calls).failed_runs := by
  suffices h : ∀ s : ScrapingStats,
      s.total_runs = s.successful_runs + s.failed_runs →
      (calls.foldl (fun s c => updateRunStats s c.1 c.2.1 c.2.2.1 c.2.2.2) s).total_runs =
        (calls.foldl (fun s c => updateRunStats s c.1 c.2.1 c.2.2.1 c.2.2.2) s).successful_runs +
        (calls.foldl (fun s c => updateRunStats s c.1 c.2.1 c.2.2.1 c.2.2.2) s).failed_runs by
    exact h {} rfl
  induction calls with
  | nil => intro s hs; exact hs
  | cons c rest ih =>
    intro s hs
    simp only [List.foldl_cons]
    apply ih
    rcases hb : c.1 with _ | _ <;> simp [updateRunStats, hb, hs] <;> try omega

/-- C10: after any sequence of update_run_stats calls from a fresh
ScrapingStats, total_runs = successful_runs + failed_runs, and the
success_rate reported by get_stats is 0 when no run happened and
otherwise satisfies rate * total = successful * 100 (i.e. it equals
successful/total as a percentage). -/
theorem stats_totals_and_success_rate (calls : List (Bool × Nat × Option String × Nat)) :
    (runUpdates calls).total_runs =
      (runUpdates calls).successful_runs + (runUpdates calls).failed_runs ∧
    ((runUpdates calls).total_runs = 0 → successRate (runUpdates calls) = 0) ∧
    (0 < (runUpdates calls).total_runs →
      successRate (runUpdates calls) * ((runUpdates calls).total_runs : ℚ) =
        ((runUpdates calls).successful_runs : ℚ) * 100) := by
  refine ⟨runUpdates_invariant calls, ?_, ?_⟩
  · intro h
    simp [successRate, h]
  · intro h
    have hne : ((runUpdates calls).total_runs : ℚ) ≠ 0 := by
      exact_mod_cast Nat.pos_iff_ne_zero.mp h
    simp only [successRate, if_pos h]
    field_simp
    try ring

/-- C10 witness: one successful run gives total_runs = 1 > 0 and
success_rate 100 = successful * 100 / total. -/
theorem stats_totals_and_success_rate_witness :
    0 < (runUpdates [(true, 5, none, 0)]).total_runs ∧
    successRate (runUpdates [(true, 5, none, 0)]) *
        ((runUpdates [(true, 5, none, 0)]).total_runs : ℚ) =
      ((runUpdates [(true, 5, none, 0)]).successful_runs : ℚ) * 100 :=
  ⟨by decide, (stats_totals_and_success_rate [(true, 5, none, 0)]).2.2 (by decide)⟩

/-- C4: an ingestion cycle in which the adapters together yield zero
validated events records exactly one more failed run (and one more total
run) with last_error "No events found from any source", never calls the
store save, and leaves the store untouched; the embedded function
returns normally (the source wraps the body in try/except and this path
raises nothing). -/
theorem zero_yield_cycle_records_failed_run :
    ∀ (env : Nat → EventFail) (pf : Nat → Bool)
      (outs : List (Except String (List Event))) (now : Nat) (st : SysState),
      scrapeAllSources outs = [] →
      (runScheduledScraping env pf outs now st).stats.failed_runs = st.stats.failed_runs + 1 ∧
      (runScheduledScraping env pf outs now st).stats.total_runs = st.stats.total_runs + 1 ∧
      (runScheduledScraping env pf outs now st).stats.last_error =
        some "No events found from any source" ∧
      (runScheduledScraping env pf outs now st).db = st.db ∧
      (runScheduledScraping env pf outs now st).saveCalled = st.saveCalled := by
  intro env pf outs now st h
  simp [runScheduledScraping, h, updateRunStats]

/-- A fresh system state for the C4 witness. -/
def freshState : SysState := { stats := {}, db := [] }

/-- C4 witness: three adapters all reporting empty output trigger the
zero-yield bookkeeping on a fresh state. -/
theorem zero_yield_cycle_records_failed_run_witness :
    scrapeAllSources [Except.ok [], Except.ok [], Except.ok []] = [] ∧
    (runScheduledScraping okEnv (fun _ => false)
        [Except.ok [], Except.ok [], Except.ok []] 0 freshState).stats.failed_runs =
      freshState.stats.failed_runs + 1 :=
  ⟨rfl, (zero_yield_cycle_records_failed_run okEnv (fun _ => false)
      [Except.ok [], Except.ok [], Except.ok []] 0 freshState rfl).1⟩

/-- A valid, fresh event arriving in the C3 scenario cycle. -/
def c3Event : Event :=
  { title := "Fresh Storytime"
    description := "Stories for kids"
    date_start := 500000000
    date_end := 500000060
    location_name := "Central Library"
    address := "10 W 14th Ave Pkwy, Denver, CO 80204"
    city := "Denver"
    age_group := .kid
    categories := ["reading"]
    price_type := .free
    source_url := "https://x.org/e"
    image_url := some "https://x.org/img.png" }

/-- A system state holding one cached entry under the stats: prefix. -/
def c3State : SysState :=
  { stats := {}
    db := []
    mcache := [("stats:events_stats", { value := "stale", expires_at := 1000, created_at := 0 })] }

/-- C3: the orchestrator's store-mutating paths do not invalidate the
event-derived cache entries.  In the scenario below the ingestion cycle
saves a new event (a store mutation), yet the cached entry under the
stats: prefix survives and a subsequent cache read (well within its TTL)
still returns the pre-write value; invalidate_events_cache would have
removed it, but nothing in app/scheduler.py calls it (the scheduler
holds a plain DatabaseHandler, not the CachedDatabase wrapper).  The
daily and weekly cleanup deletes likewise leave the cache untouched. -/
theorem scheduler_mutations_leave_event_cache :
    (runScheduledScraping okEnv (fun _ => false) [Except.ok [c3Event]] 10 c3State).saveCalled
        = true ∧
    (runScheduledScraping okEnv (fun _ => false) [Except.ok [c3Event]] 10 c3State).db
        = [c3Event] ∧
    (runScheduledScraping okEnv (fun _ => false) [Except.ok [c3Event]] 10 c3State).mcache
        = c3State.mcache ∧
    (cacheGet 20
        (runScheduledScraping okEnv (fun _ => false) [Except.ok [c3Event]] 10 c3State).mcache
        "stats:events_stats").1 = some "stale" ∧
    (cacheGet 20
        (invalidateEventsCache
          (runScheduledScraping okEnv (fun _ => false) [Except.ok [c3Event]] 10 c3State).mcache)
        "stats:events_stats").1 = none ∧
    (runDailyCleanup 10 c3State).mcache = c3State.mcache ∧
    (runWeeklyCleanup 10 c3State).mcache = c3State.mcache := by
  decide

/-- A concrete event used in the C1 witness. -/
def c1Event : Event :=
  { title := "Family STEAM Workshop"
    description := "Hands-on science"
    date_start := 777000
    date_end := 777060
    location_name := "Green Valley Ranch Library"
    address := "4856 N Telluride St, Denver, CO 80249"
    city := "Denver"
    age_group := .kid
    categories := ["STEM & Technology"]
    price_type := .free
    source_url := "https://denverlibrary.libcal.com/event/14335139"
    image_url := some "https://picsum.photos/400/300?random=14335139" }

/-- C1: in DatabaseHandler.save_events, an event is inserted only when
both the exact triple check and the loose (title, location_name) check
return no existing row; when either check hits, the outcome is one of
the two skip outcomes and the store is left exactly as it was (no merge
or update); and whatever the per-event failures, the batch loop
processes every event (one outcome per input event, no abort). -/
theorem save_events_two_stage_dedup :
    ∀ (env : Nat → EventFail) (db events : List Event)
      (f : EventFail) (d : List Event) (e : Event),
      ((saveStep f d e).1 = SaveOutcome.saved →
        dhEventExists f.tripleRaises d e.title e.date_start e.location_name = false ∧
        getEventsByTitleAndLocation f.looseRaises d e.title e.location_name = []) ∧
      ((dhEventExists f.tripleRaises d e.title e.date_start e.location_name = true ∨
          getEventsByTitleAndLocation f.looseRaises d e.title e.location_name ≠ []) →
        ((saveStep f d e).1 = SaveOutcome.skippedTriple ∨
          (saveStep f d e).1 = SaveOutcome.skippedLoose) ∧
        (saveStep f d e).2 = d) ∧
      (saveEvents env db events).1.length = events.length := by
  intro env db events f d e
  refine ⟨?_, ?_, saveEventsAux_length env events 0 db⟩
  · intro hsaved
    by_cases h1 : dhEventExists f.tripleRaises d e.title e.date_start e.location_name = true
    · exfalso
      rw [show (saveStep f d e).1 = SaveOutcome.skippedTriple by simp [saveStep, h1]] at hsaved
      cases hsaved
    · by_cases h2 : (getEventsByTitleAndLocation f.looseRaises d e.title e.location_name).isEmpty = true
      · refine ⟨by simpa using h1, ?_⟩
        rw [← List.isEmpty_iff]
        exact h2
      · exfalso
        rw [show (saveStep f d e).1 = SaveOutcome.skippedLoose by simp [saveStep, h1, h2]] at hsaved
        cases hsaved
  · intro hhit
    by_cases h1 : dhEventExists f.tripleRaises d e.title e.date_start e.location_name = true
    · constructor
      · left; simp [saveStep, h1]
      · simp [saveStep, h1]
    · have h2 : (getEventsByTitleAndLocation f.looseRaises d e.title e.location_name).isEmpty ≠ true := by
        rcases hhit with h | h
        · exact absurd h h1
        · simpa [List.isEmpty_iff] using h
      constructor
      · right; simp [saveStep, h1, h2]
      · simp [saveStep, h1, h2]

/-- C1 witness: a fresh store inserts the event (both checks miss); a
store already holding the same triple skips it and stays unchanged; a
two-event batch always yields two outcomes. -/
theorem save_events_two_stage_dedup_witness :
    ((saveStep {} [] c1Event).1 = SaveOutcome.saved ∧
      dhEventExists false [] c1Event.title c1Event.date_start c1Event.location_name = false ∧
      getEventsByTitleAndLocation false [] c1Event.title c1Event.location_name = []) ∧
    (dhEventExists false [c1Event] c1Event.title c1Event.date_start c1Event.location_name = true ∧
      (((saveStep {} [c1Event] c1Event).1 = SaveOutcome.skippedTriple ∨
         (saveStep {} [c1Event] c1Event).1 = SaveOutcome.skippedLoose) ∧
        (saveStep {} [c1Event] c1Event).2 = [c1Event])) ∧
    (saveEvents okEnv [] [c1Event, c1Event]).1.length = 2 :=
  ⟨⟨rfl, (save_events_two_stage_dedup okEnv [] [] {} [] c1Event).1 rfl⟩,
   ⟨by decide,
    (save_events_two_stage_dedup okEnv [] [] {} [c1Event] c1Event).2.1 (Or.inl (by decide))⟩,
   (save_events_two_stage_dedup okEnv [] [c1Event, c1Event] {} [] c1Event).2.2⟩

/-- C2: running the ingestion dedup-save step twice with the same
validated events (the second run against the store the first one
produced) persists nothing in the second run: the store is unchanged and
the saved count is zero, because every event is caught by the exact
triple check or by the loose (title, location_name) check. -/
theorem ingestion_save_idempotent (db events : List Event) :
    (cycleSave (cycleSave db events).2 events).2 = (cycleSave db events).2 ∧
    savedCount (cycleSave (cycleSave db events).2 events).1 = 0 := by
  have hall : ∀ e ∈ events, looseHit (cycleSave db events).2 e = true := by
    intro e he
    by_cases hmem : e ∈ events.filter
        (fun e => !dhEventExists false db e.title e.date_start e.location_name)
    · by_cases hempty : (events.filter
          (fun e => !dhEventExists false db e.title e.date_start e.location_name)).isEmpty = true
      · rw [List.isEmpty_iff] at hempty
        rw [hempty] at hmem
        cases hmem
      · have hdb1 : (cycleSave db events).2 =
            (saveEventsAux okEnv 0 db (events.filter
              (fun e => !dhEventExists false db e.title e.date_start e.location_name))).2 := by
          simp [cycleSave, hempty, saveEvents]
        rw [hdb1]
        exact saveEventsAux_looseHit _ 0 db e hmem
    · have htr : dhEventExists false db e.title e.date_start e.location_name = true := by
        cases hb : dhEventExists false db e.title e.date_start e.location_name with
        | true => rfl
        | false =>
          exfalso
          exact hmem (List.mem_filter.mpr ⟨he, by simp [hb]⟩)
      have hl := looseHit_of_triple db e htr
      by_cases hempty : (events.filter
          (fun e => !dhEventExists false db e.title e.date_start e.location_name)).isEmpty = true
      · have hdb1 : (cycleSave db events).2 = db := by simp [cycleSave, hempty]
        rw [hdb1]
        exact hl
      · have hdb1 : (cycleSave db events).2 =
            (saveEventsAux okEnv 0 db (events.filter
              (fun e => !dhEventExists false db e.title e.date_start e.location_name))).2 := by
          simp [cycleSave, hempty, saveEvents]
        rw [hdb1]
        exact looseHit_mono db _ e (fun x hx => saveEventsAux_mem okEnv _ 0 db x hx) hl
  by_cases hempty2 : (events.filter
      (fun e => !dhEventExists false (cycleSave db events).2
        e.title e.date_start e.location_name)).isEmpty = true
  · constructor
    · conv_lhs => rw [cycleSave]
      simp [hempty2]
    · conv_lhs => rw [cycleSave]
      simp [hempty2, savedCount]
  · have hall2 : ∀ e ∈ events.filter
        (fun e => !dhEventExists false (cycleSave db events).2
          e.title e.date_start e.location_name),
        looseHit (cycleSave db events).2 e = true := by
      intro e he
      exact hall e (List.mem_of_mem_filter he)
    obtain ⟨hdb, hout⟩ := saveEventsAux_all_loose_skips _ 0 (cycleSave db events).2 hall2
    constructor
    · have h2 : (cycleSave (cycleSave db events).2 events).2 =
          (saveEventsAux okEnv 0 (cycleSave db events).2 (events.filter
            (fun e => !dhEventExists false (cycleSave db events).2
              e.title e.date_start e.location_name))).2 := by
        conv_lhs => rw [cycleSave]
        simp [hempty2, saveEvents]
      rw [h2, hdb]
    · have h1 : (cycleSave (cycleSave db events).2 events).1 =
          (saveEventsAux okEnv 0 (cycleSave db events).2 (events.filter
            (fun e => !dhEventExists false (cycleSave db events).2
              e.title e.date_start e.location_name))).1 := by
        conv_lhs => rw [cycleSave]
        simp [hempty2, saveEvents]
      rw [h1]
      simp only [savedCount]
      rw [List.count_eq_zero]
      intro hmem
      exact hout _ hmem rfl

/-! ## Date well-formedness of the adapters (C7 infrastructure) -/

/-- The event list carried by an adapter result. -/
def eventsOf : Except String (List Event) → List Event
  | .ok l => l
  | .error _ => []

theorem foldl_preserves {α β : Type} (f : β → α → β) (P : β → Prop) :
    ∀ (l : List α) (init : β), P init → (∀ b a, a ∈ l → P b → P (f b a)) →
    P (l.foldl f init) := by
  intro l
  induction l with
  | nil => intro init h0 _; exact h0
  | cons x rest ih =>
    intro init h0 hstep
    exact ih (f init x) (hstep init x (List.mem_cons_self x rest) h0)
      (fun b a ha hb => hstep b a (List.mem_cons_of_mem x ha) hb)

theorem dlExtract_wf (env : ScrapeEnv) (now : Nat) (url : String) (e : Event)
    (h : dlExtractEventDetails env now url = some e) : wfDates e = true := by
  unfold dlExtractEventDetails at h
  cases hf : env.fetch url with
  | error err =>
    simp only [hf] at h
    exact Option.noConfusion h
  | ok page =>
    simp only [hf] at h
    cases ht : page.title with
    | none =>
      simp only [ht] at h
      exact Option.noConfusion h
    | some rawTitle =>
      simp only [ht, Option.some.injEq] at h
      subst h
      simp [wfDates, pyDelta]

theorem dlCuratedEvent_wf (now i : Nat) (eventId : String) :
    wfDates (dlCuratedEvent now i eventId) = true := by
  unfold dlCuratedEvent
  split_ifs <;> simp [wfDates, pyDelta]

theorem dlCurated_wf (now : Nat) :
    ∀ e ∈ dlCuratedLibraryEvents now, wfDates e = true := by
  intro e he
  unfold dlCuratedLibraryEvents at he
  rcases List.mem_map.mp he with ⟨i, _, rfl⟩
  exact dlCuratedEvent_wf now i _

theorem dlPerIdStep_wf (env : ScrapeEnv) (now : Nat) (st : List Event × Bool)
    (eid : String) (h : ∀ e ∈ st.1, wfDates e = true) :
    ∀ e ∈ (dlPerIdStep env now st eid).1, wfDates e = true := by
  intro a ha
  unfold dlPerIdStep at ha
  by_cases hstop : st.2 = true
  · simp only [hstop, if_true] at ha
    exact h a ha
  · simp only [hstop] at ha
    cases hh : env.headStatus ("https://denverlibrary.libcal.com/event/" ++ eid) with
    | error err =>
      simp [hh] at ha
      exact h a ha
    | ok status =>
      by_cases hs : status ≠ 200
      · simp [hh, hs] at ha
        exact h a ha
      · cases hext : dlExtractEventDetails env now
            ("https://denverlibrary.libcal.com/event/" ++ eid) with
        | none =>
          simp [hh, hs, hext] at ha
          exact h a ha
        | some ev =>
          by_cases hrel : (dlIsFamilyRelevant ev &&
              !st.1.any (fun ex => ex.title = ev.title)) = true
          · simp [hh, hs, hext, hrel] at ha
            rcases ha with ha | heq
            · exact h a ha
            · subst heq
              exact dlExtract_wf env now _ a hext
          · simp [hh, hs, hext, hrel] at ha
            exact h a ha

theorem dlScrapeLibcalBody_wf (env : ScrapeEnv) (now : Nat) :
    ∀ e ∈ dlScrapeLibcalBody env now, wfDates e = true := by
  intro e he
  unfold dlScrapeLibcalBody at he
  by_cases hids : (dlFindRealEventIds env).isEmpty = true
  · simp only [hids, Bool.not_true, if_false] at he
    simp at he
    exact dlCurated_wf now e he
  · simp only [hids, Bool.not_false, if_true] at he
    by_cases hev : (((dlFindRealEventIds env).take 10).foldl
        (dlPerIdStep env now) ([], false)).1.isEmpty = true
    · rw [if_pos hev] at he
      exact dlCurated_wf now e he
    · rw [if_neg hev] at he
      refine foldl_preserves (dlPerIdStep env now)
        (fun st => ∀ x ∈ st.1, wfDates x = true) _ _ ?_ ?_ e he
      · intro x hx
        simp at hx
      · intro b a _ hb
        exact dlPerIdStep_wf env now b a hb

theorem dlSupplement_wf (events curated : List Event)
    (h1 : ∀ e ∈ events, wfDates e = true) (h2 : ∀ e ∈ curated, wfDates e = true) :
    ∀ e ∈ dlSupplement events curated, wfDates e = true := by
  intro e he
  unfold dlSupplement at he
  by_cases hlen : events.length < 4
  · rw [if_pos hlen] at he
    refine foldl_preserves _
      (fun acc => ∀ x ∈ acc, wfDates x = true) _ _ h1 ?_ e he
    intro acc c hcmem hacc x hx
    by_cases hc : (!(events.map (fun e => e.source_url)).contains c.source_url &&
        !(events.map (fun e => e.title)).contains c.title && acc.length < 8) = true
    · simp only [hc, if_true] at hx
      rcases List.mem_append.mp hx with hx | hx
      · exact hacc x hx
      · rw [List.mem_singleton.mp hx]
        exact h2 c hcmem
    · simp only [hc, if_false] at hx
      exact hacc x hx
  · rw [if_neg hlen] at he
    exact h1 e he

theorem dlScrape_wf (env : ScrapeEnv) (now : Nat) :
    ∀ e ∈ eventsOf (dlScrapeEvents env now), wfDates e = true := by
  intro e he
  have : eventsOf (dlScrapeEvents env now) =
      dlSupplement (dlScrapeLibcalBody env now) (dlCuratedLibraryEvents now) := rfl
  rw [this] at he
  exact dlSupplement_wf _ _ (dlScrapeLibcalBody_wf env now) (dlCurated_wf now) e he

theorem koDates_wf (dateTexts : List String) (now : Nat) :
    (koExtractEventDates dateTexts now).1 ≤ (koExtractEventDates dateTexts now).2 := by
  unfold koExtractEventDates
  split
  · split <;> simp [pyDelta]
  · simp [pyDelta]

theorem koExtract_wf (env : ScrapeEnv) (now : Nat) (url : String) (e : Event)
    (h : koExtractEventDetails env now url = some e) : wfDates e = true := by
  unfold koExtractEventDetails at h
  cases hf : env.fetch url with
  | error err =>
    simp only [hf] at h
    exact Option.noConfusion h
  | ok page =>
    simp only [hf] at h
    cases ht : koRawTitle page.titleCandidates with
    | none =>
      simp only [ht] at h
      exact Option.noConfusion h
    | some rawTitle =>
      simp only [ht, Option.some.injEq] at h
      subst h
      simp only [wfDates, decide_eq_true_eq]
      exact koDates_wf page.dateTexts now

theorem koCurated_wf (now : Nat) :
    ∀ e ∈ koCuratedEvents now, wfDates e = true := by
  intro e he
  unfold koCuratedEvents at he
  simp only [List.mem_cons, List.mem_singleton] at he
  rcases he with rfl | rfl | rfl | rfl | rfl | he
  · simp [wfDates, pyDelta]
  · simp [wfDates, pyDelta]
  · simp [wfDates, pyDelta]
  · simp [wfDates, pyDelta]
  · simp only [wfDates, decide_eq_true_eq]
    decide
  · cases he

theorem koScrapePageEvents_wf (env : ScrapeEnv) (now : Nat) (pagePath : String)
    (processed : List String) :
    ∀ e ∈ (koScrapePageEvents env now pagePath processed).1, wfDates e = true := by
  unfold koScrapePageEvents
  cases hf : env.fetch (koBaseUrl ++ pagePath) with
  | error err =>
    simp only [hf]
    intro e he
    cases he
  | ok page =>
    simp only [hf]
    intro e he
    refine foldl_preserves _
      (fun (st : List Event × List String) => ∀ x ∈ st.1, wfDates x = true) _ _ ?_ ?_ e he
    · intro x hx
      cases hx
    · intro st u _ hst a ha
      by_cases hc : st.2.contains u = true
      · simp only [hc, if_true] at ha
        exact hst a ha
      · simp only [hc, if_false] at ha
        cases hext : koExtractEventDetails env now u with
        | none =>
          simp [hext] at ha
          exact hst a ha
        | some ev =>
          by_cases hv : koIsValidEvent ev = true
          · simp [hext, hv] at ha
            rcases ha with ha | heq
            · exact hst a ha
            · subst heq
              exact koExtract_wf env now u a hext
          · simp [hext, hv] at ha
            exact hst a ha

theorem koScrape_wf (env : ScrapeEnv) (now : Nat) :
    ∀ e ∈ eventsOf (koScrapeEvents env now), wfDates e = true := by
  intro e he
  have hcore : ∀ x ∈ (koEventPages.foldl
      (fun (st : (List Event × List String) × Bool) pagePath =>
        if st.2 then st
        else
          let r := koScrapePageEvents env now pagePath st.1.2
          let all := st.1.1 ++ r.1
          ((all, r.2), 15 ≤ all.length))
      (([], []), false)).1.1, wfDates x = true := by
    refine foldl_preserves _
      (fun (st : (List Event × List String) × Bool) => ∀ x ∈ st.1.1, wfDates x = true)
      _ _ ?_ ?_
    · intro x hx
      cases hx
    · intro st pagePath _ hst a ha
      by_cases hstop : st.2 = true
      · simp only [hstop, if_true] at ha
        exact hst a ha
      · simp only [hstop, if_false] at ha
        rcases List.mem_append.mp ha with ha | ha
        · exact hst a ha
        · exact koScrapePageEvents_wf env now pagePath st.1.2 a ha
  have hwith : ∀ x ∈ ((koCuratedEvents now).foldl
      (fun (st : List Event × List String) c =>
        if st.2.contains c.source_url then st
        else (st.1 ++ [c], st.2 ++ [c.source_url]))
      (koEventPages.foldl
        (fun (st : (List Event × List String) × Bool) pagePath =>
          if st.2 then st
          else
            let r := koScrapePageEvents env now pagePath st.1.2
            let all := st.1.1 ++ r.1
            ((all, r.2), 15 ≤ all.length))
        (([], []), false)).1).1, wfDates x = true := by
    refine foldl_preserves _
      (fun (st : List Event × List String) => ∀ x ∈ st.1, wfDates x = true) _ _ hcore ?_
    intro st c hcmem hst a ha
    by_cases hc : st.2.contains c.source_url = true
    · simp only [hc, if_true] at ha
      exact hst a ha
    · simp only [hc, if_false] at ha
      rcases List.mem_append.mp ha with ha | ha
      · exact hst a ha
      · rw [List.mem_singleton.mp ha]
        exact koCurated_wf now c hcmem
  have he2 : e ∈ ((koCuratedEvents now).foldl
      (fun (st : List Event × List String) c =>
        if st.2.contains c.source_url then st
        else (st.1 ++ [c], st.2 ++ [c.source_url]))
      (koEventPages.foldl
        (fun (st : (List Event × List String) × Bool) pagePath =>
          if st.2 then st
          else
            let r := koScrapePageEvents env now pagePath st.1.2
            let all := st.1.1 ++ r.1
            ((all, r.2), 15 ≤ all.length))
        (([], []), false)).1).1 := List.take_subset 15 _ he
  exact hwith e he2

theorem deCreateEvent_wf (env : ScrapeEnv) (now : Nat)
    (title description url eventType : String) (e : Event)
    (h : deCreateEvent env now title description url eventType = some e) :
    wfDates e = true := by
  unfold deCreateEvent at h
  by_cases hlen : (env.normSpace title).length < 5
  · simp only [hlen, if_true] at h
    exact Option.noConfusion h
  · simp only [hlen, if_false, Option.some.injEq] at h
    subst h
    by_cases ht1 : eventType = "annual"
    · simp [ht1, wfDates, pyDelta]
    · by_cases ht2 : eventType = "attraction"
      · simp [ht1, ht2, wfDates, pyDelta]
      · simp [ht1, ht2, wfDates, pyDelta]

theorem deContainer_wf (env : ScrapeEnv) (now : Nat) (c : Container) (e : Event)
    (h : deExtractEventFromContainer env now c = some e) : wfDates e = true := by
  unfold deExtractEventFromContainer at h
  cases ht : c.headingText <|> c.anchorText with
  | none =>
    simp only [ht] at h
    exact Option.noConfusion h
  | some title =>
    simp only [ht] at h
    by_cases hlen : title.length < 5
    · simp only [hlen, if_true] at h
      exact Option.noConfusion h
    · simp only [hlen, if_false] at h
      exact deCreateEvent_wf env now title _ _ "event" e h

theorem deMain_wf (env : ScrapeEnv) (now : Nat) :
    ∀ e ∈ deScrapeMainEvents env now, wfDates e = true := by
  unfold deScrapeMainEvents
  intro e he
  refine foldl_preserves _
    (fun (st : List Event × Bool) => ∀ x ∈ st.1, wfDates x = true) _ _ ?_ ?_ e he
  · intro x hx
    cases hx
  · intro st url _ hst a ha
    by_cases hstop : st.2 = true
    · simp only [hstop, if_true] at ha
      exact hst a ha
    · simp only [hstop, if_false] at ha
      cases hf : env.fetch url with
      | error err =>
        simp only [hf] at ha
        exact hst a ha
      | ok page =>
        simp only [hf] at ha
        refine foldl_preserves _
          (fun (acc : List Event) => ∀ x ∈ acc, wfDates x = true) _ _ hst ?_ a ha
        intro acc c _ hacc x hx
        cases hext : deExtractEventFromContainer env now c with
        | none =>
          simp only [hext] at hx
          exact hacc x hx
        | some ev =>
          simp only [hext] at hx
          rcases List.mem_append.mp hx with hx | hx
          · exact hacc x hx
          · rw [List.mem_singleton.mp hx]
            exact deContainer_wf env now c ev hext

theorem deAnnual_wf (env : ScrapeEnv) (now : Nat) :
    ∀ e ∈ deScrapeAnnualEvents env now, wfDates e = true := by
  unfold deScrapeAnnualEvents
  intro e he
  cases hf : env.fetch (deBaseUrl ++ "/events/annual-events/") with
  | error err =>
    simp only [hf] at he
    cases he
  | ok page =>
    simp only [hf] at he
    have he2 := List.take_subset 2 _ he
    refine foldl_preserves _
      (fun (acc : List Event) => ∀ x ∈ acc, wfDates x = true) _ _ ?_ ?_ e he2
    · intro x hx
      cases hx
    · intro acc p _ hacc x hx
      by_cases hterm : (anyKeyword (strToLower p.1)
          ["festival", "fair", "market", "celebration"] && decide (10 < p.1.length)) = true
      · rw [if_pos hterm] at hx
        by_cases hs1 : strStartsWith p.2 "/" = true
        · rw [if_pos hs1] at hx
          cases hcr : deCreateEvent env now p.1 ("Annual " ++ p.1 ++ " celebration in Denver")
              (deBaseUrl ++ p.2) "annual" with
          | none =>
            simp only [hcr] at hx
            exact hacc x hx
          | some ev =>
            simp only [hcr] at hx
            rcases List.mem_append.mp hx with hx | hx
            · exact hacc x hx
            · rw [List.mem_singleton.mp hx]
              exact deCreateEvent_wf env now _ _ _ _ ev hcr
        · rw [if_neg hs1] at hx
          by_cases hs2 : strStartsWith p.2 "http" = true
          · rw [if_pos hs2] at hx
            cases hcr : deCreateEvent env now p.1 ("Annual " ++ p.1 ++ " celebration in Denver")
                p.2 "annual" with
            | none =>
              simp only [hcr] at hx
              exact hacc x hx
            | some ev =>
              simp only [hcr] at hx
              rcases List.mem_append.mp hx with hx | hx
              · exact hacc x hx
              · rw [List.mem_singleton.mp hx]
                exact deCreateEvent_wf env now _ _ _ _ ev hcr
          · rw [if_neg hs2] at hx
            exact hacc x hx
      · rw [if_neg hterm] at hx
        exact hacc x hx

theorem deFamily_wf (env : ScrapeEnv) (now : Nat) :
    ∀ e ∈ deScrapeFamilyEvents env now, wfDates e = true := by
  unfold deScrapeFamilyEvents
  intro e he
  refine foldl_preserves _
    (fun (st : List Event × Bool) => ∀ x ∈ st.1, wfDates x = true) _ _ ?_ ?_ e he
  · intro x hx
    cases hx
  · intro st url _ hst a ha
    by_cases hstop : st.2 = true
    · simp only [hstop, if_true] at ha
      exact hst a ha
    · simp only [hstop, if_false] at ha
      cases hf : env.fetch url with
      | error err =>
        simp only [hf] at ha
        exact hst a ha
      | ok page =>
        simp only [hf] at ha
        refine foldl_preserves _
          (fun (acc : List Event) => ∀ x ∈ acc, wfDates x = true) _ _ hst ?_ a ha
        intro acc p _ hacc x hx
        by_cases hterm : (decide (15 < p.1.length) &&
            anyKeyword (strToLower p.1) ["museum", "zoo", "park", "center"]) = true
        · rw [if_pos hterm] at hx
          by_cases hs1 : strStartsWith p.2 "/" = true
          · rw [if_pos hs1] at hx
            cases hcr : deCreateEvent env now (p.1 ++ " Family Programs")
                ("Family-friendly activities and programs at " ++ p.1)
                (deBaseUrl ++ p.2) "attraction" with
            | none =>
              simp only [hcr] at hx
              exact hacc x hx
            | some ev =>
              simp only [hcr] at hx
              rcases List.mem_append.mp hx with hx | hx
              · exact hacc x hx
              · rw [List.mem_singleton.mp hx]
                exact deCreateEvent_wf env now _ _ _ _ ev hcr
          · rw [if_neg hs1] at hx
            by_cases hs2 : strStartsWith p.2 "http" = true
            · rw [if_pos hs2] at hx
              cases hcr : deCreateEvent env now (p.1 ++ " Family Programs")
                  ("Family-friendly activities and programs at " ++ p.1)
                  p.2 "attraction" with
              | none =>
                simp only [hcr] at hx
                exact hacc x hx
              | some ev =>
                simp only [hcr] at hx
                rcases List.mem_append.mp hx with hx | hx
                · exact hacc x hx
                · rw [List.mem_singleton.mp hx]
                  exact deCreateEvent_wf env now _ _ _ _ ev hcr
            · rw [if_neg hs2] at hx
              exact hacc x hx
        · rw [if_neg hterm] at hx
          exact hacc x hx

theorem deCurated_wf (now : Nat) :
    ∀ e ∈ deCuratedEvents now, wfDates e = true := by
  intro e he
  unfold deCuratedEvents at he
  simp only [List.mem_cons, List.mem_singleton] at he
  rcases he with rfl | rfl | rfl | rfl | rfl | rfl | he
  · simp only [wfDates, decide_eq_true_eq]
    decide
  · simp only [wfDates, decide_eq_true_eq]
    decide
  · simp only [wfDates, decide_eq_true_eq]
    decide
  · simp [wfDates, pyDelta]
  · simp [wfDates, pyDelta]
  · simp [wfDates, pyDelta]
  · cases he

theorem dedupBySourceUrl_wf (events : List Event)
    (h : ∀ e ∈ events, wfDates e = true) :
    ∀ e ∈ dedupBySourceUrl events, wfDates e = true := by
  intro e he
  unfold dedupBySourceUrl at he
  refine foldl_preserves _
    (fun (st : List Event × List String) => ∀ x ∈ st.1, wfDates x = true) _ _ ?_ ?_ e he
  · intro x hx
    cases hx
  · intro st a hamem hst x hx
    by_cases hc : st.2.contains a.source_url = true
    · simp only [hc, if_true] at hx
      exact hst x hx
    · simp only [hc, if_false] at hx
      rcases List.mem_append.mp hx with hx | hx
      · exact hst x hx
      · rw [List.mem_singleton.mp hx]
        exact h a hamem

/-- C7: every event produced by the registered adapters — extracted from
live pages with synthesized dates or taken from the curated fallback
lists — satisfies date_end >= date_start, for every scraping environment
and wall-clock instant. -/
theorem adapter_dates_well_formed :
    ∀ (env : ScrapeEnv) (now : Nat),
      (eventsOf (dlScrapeEvents env now)).all wfDates = true ∧
      (eventsOf (koScrapeEvents env now)).all wfDates = true ∧
      (eventsOf (deScrapeEvents env now)).all wfDates = true := by
  intro env now
  refine ⟨?_, ?_, ?_⟩
  · rw [List.all_eq_true]
    exact dlScrape_wf env now
  · rw [List.all_eq_true]
    exact koScrape_wf env now
  · rw [List.all_eq_true]
    intro e he
    have he2 : e ∈ dedupBySourceUrl (deScrapeMainEvents env now ++ deScrapeAnnualEvents env now
        ++ deScrapeFamilyEvents env now ++ deCuratedEvents now) := List.take_subset 6 _ he
    refine dedupBySourceUrl_wf _ ?_ e he2
    intro x hx
    rcases List.mem_append.mp hx with hx | hx
    · rcases List.mem_append.mp hx with hx | hx
      · rcases List.mem_append.mp hx with hx | hx
        · exact deMain_wf env now x hx
        · exact deAnnual_wf env now x hx
      · exact deFamily_wf env now x hx
    · exact deCurated_wf now x hx

/-- Whether an adapter call returned normally. -/
def isOkResult : Except String (List Event) → Bool
  | .ok _ => true
  | .error _ => false

set_option maxHeartbeats 8000000 in
/-- C5: for every registered source adapter and every scraping
environment (arbitrary network failures included), scrape_events returns
normally with a list of events — the internal try/except structure
catches every extraction error — and in the environment where every
request raises, each adapter returns exactly its fixed curated fallback
list (evaluated here at wall-clock instant 0). -/
theorem scrapers_never_raise_and_fall_back :
    ∀ (env : ScrapeEnv) (now : Nat),
      isOkResult (dlScrapeEvents env now) = true ∧
      isOkResult (koScrapeEvents env now) = true ∧
      isOkResult (deScrapeEvents env now) = true ∧
      dlScrapeEvents allFailEnv 0 = .ok (dlCuratedLibraryEvents 0) ∧
      koScrapeEvents allFailEnv 0 = .ok (koCuratedEvents 0) ∧
      deScrapeEvents allFailEnv 0 = .ok (deCuratedEvents 0) := by
  intro env now
  exact ⟨rfl, rfl, rfl, rfl, rfl, rfl⟩
